import Mathlib

/-
Verification development for the Aix-DB streaming deep-research agent.

Shallow embedding of:
  src/agent/deepagent/deep_research_agent.py   (class DeepAgent)
  src/agent/deepagent/tools/native_sql_tools.py

Conventions of the embedding:
  * Python strings are Lean `String`; `str.strip()` is `py_strip`,
    `str.upper()`/`str.lower()` are `py_upper`/`py_lower`,
    `pat in s` is `strContains s pat`, `s[:n]` is `py_take`.
  * A Python exception is modelled as its observable pair
    (type(e).__name__, str(e)).
  * The output channel (`response.write`) is modelled by an oracle: either
    a per-write outcome `Option Exn` (None = success) at the single-write
    level, or a boolean oracle `chan : Nat → Bool` indexed by a write
    counter at the pipeline level, where a failed write fails with a
    connection error (non-connection write failures re-raise out of
    `_safe_write` and are treated at the single-write level only).
  * The cooperative cancellation flag `running_tasks[task_id]["cancelled"]`
    is modelled by an oracle `cancelled : Nat → Bool` indexed by a poll
    counter; the flag is polled at the top of each transcript snapshot and
    before each message of a batch, exactly as in the source.  The checks
    inside `_print_message` re-read the same flag; the embedding passes
    the value seen by the enclosing per-message poll, i.e. the flag is
    assumed not to flip in the middle of rendering one message (message
    boundaries are the granularity at which the claims are stated).
-/

namespace AixDB

/-
Python string primitives are modelled on the underlying character list
(`String.data`) rather than through the byte-position-based `String`
API of core Lean, so that every definition evaluates inside the kernel
(`decide` / `rfl`); the two presentations are extensionally the same.
-/

/-- Python `s.lower()` (ASCII case mapping, as `str.lower` on the
identifiers and messages this code handles). -/
def py_lower (s : String) : String :=
  String.mk (s.data.map Char.toLower)

/-- Python `s.upper()`. -/
def py_upper (s : String) : String :=
  String.mk (s.data.map Char.toUpper)

/-- Python `s.strip()`: drop leading and trailing whitespace. -/
def py_strip (s : String) : String :=
  String.mk
    (((s.data.dropWhile Char.isWhitespace).reverse.dropWhile
      Char.isWhitespace).reverse)

/-- Python `s[:n]`. -/
def py_take (s : String) (n : Nat) : String :=
  String.mk (s.data.take n)

/-- Python `s.startswith(pre)`. -/
def py_startsWith (s pre : String) : Bool :=
  pre.data.isPrefixOf s.data

/-- Splitting at whitespace characters (each whitespace char is a
separator), the list-level counterpart of `str.split`-style tokenizing
used by the fingerprint normalization. -/
def py_split_ws (s : String) : List String :=
  (s.data.splitOnP Char.isWhitespace).map String.mk

/-- Python substring containment: `pat in s` (true at any position, and
true for the empty pattern). -/
def strContains (s pat : String) : Bool :=
  (List.range (s.data.length + 1)).any
    (fun i => pat.data.isPrefixOf (s.data.drop i))

/-- One SSE frame, i.e. the JSON payload built by `DeepAgent._create_response`
(field `data.messageType`, `data.content`) together with the top-level
`dataType` discriminator.  The surrounding `"data:" + json + "\n\n"` text
envelope carries no further information and is not modelled. -/
structure Frame where
  messageType : String
  content : String
  dataType : String
deriving Repr, DecidableEq

/-- Value of `DataTypeEnum.ANSWER.value[0]` (constants/code_enum.py is not
part of the analysed sources; the exact string is immaterial, only that it
differs from the stream-end discriminator). -/
def ANSWER_DT : String := "t02"

/-- Value of `DataTypeEnum.STREAM_END.value[0]` (see `ANSWER_DT`). -/
def STREAM_END_DT : String := "t98"

/-- Embedding of `DeepAgent._create_response`. -/
def create_response (content : String) (message_type : String := "continue")
    (data_type : String := ANSWER_DT) : Frame :=
  { messageType := message_type, content := content, dataType := data_type }

/-- Observable part of a Python exception: `type(e).__name__` and `str(e)`. -/
structure Exn where
  typeName : String
  message : String
deriving Repr, DecidableEq

/-- Embedding of `DeepAgent._is_connection_error`. -/
def is_connection_error (e : Exn) : Bool :=
  let error_type := e.typeName
  let error_msg := py_lower e.message
  let connection_error_types : List String :=
    ["ConnectionClosed", "ConnectionResetError", "BrokenPipeError",
     "ConnectionError", "OSError"]
  let connection_error_keywords : List String :=
    ["connection closed", "connection reset", "broken pipe",
     "client disconnected", "connection aborted", "transport closed"]
  if connection_error_types.contains error_type then
    true
  else
    connection_error_keywords.any (fun keyword => strContains error_msg keyword)

/-- Timeout test performed in the outer exception handler of
`DeepAgent._stream_agent_response` (lines 492-498 of the source). -/
def is_timeout_exn (e : Exn) : Bool :=
  let error_type := e.typeName
  let error_msg := py_lower e.message
  strContains error_msg "timeout" || strContains error_msg "timed out" ||
    ["TimeoutError", "asyncio.TimeoutError"].contains error_type

/-- Embedding of `DeepAgent._safe_write` for a single write whose outcome is
given by the oracle `wres` (`none` = the transport accepted the write).
Result: `.ok (flag, deliveredFrames)` when `_safe_write` returns normally
with `flag`, `.error e` when it re-raises `e`.  A failed write delivers
nothing to the client. -/
def safe_write (wres : Option Exn) (content : String)
    (message_type : String := "continue") (data_type : String := ANSWER_DT) :
    Except Exn (Bool × List Frame) :=
  match wres with
  | none => .ok (true, [create_response content message_type data_type])
  | some e =>
      if is_connection_error e then .ok (false, [])
      else .error e

/-- Embedding of `DeepAgent._format_user_message`. -/
def format_user_message (content : String) : String :=
  if content = "" || py_strip content = "" then content
  else
    let c := py_strip content
    "> 💬 **Question**\n> \n> " ++ c ++ "\n\n"

/-- Embedding of `DeepAgent._format_agent_content`. -/
def format_agent_content (content : String) : String :=
  if content = "" || py_strip content = "" then content
  else
    let c := py_strip content
    "🤖 " ++ c ++ "\n\n"

/-- Value of one entry of a tool-call argument dict: the arguments the
renderer inspects are either strings or lists of strings. -/
inductive ArgVal where
  | str (s : String)
  | list (xs : List String)
deriving Repr, DecidableEq

/-- Python `args.get(key, "")` over the modelled argument dict. -/
def dict_get (args : List (String × ArgVal)) (key : String) : ArgVal :=
  match args.find? (fun p => p.1 == key) with
  | some p => p.2
  | none => .str ""

/-- Embedding of `DeepAgent._format_tool_call` (returns `none` where the
source returns `None`, i.e. for unrecognized tool names). -/
def format_tool_call (name : String) (args : List (String × ArgVal)) :
    Option String :=
  if name = "sql_db_query" then
    let query := match dict_get args "query" with
      | .str s => s
      | .list _ => ""
    let formatted_query := py_strip query
    some ("⚡ **Executing SQL**\n```sql\n" ++ formatted_query ++ "\n```\n\n")
  else if name = "sql_db_schema" then
    let table_names := match dict_get args "table_names" with
      | .str s => s
      | .list xs => String.intercalate ", " xs
    if table_names ≠ "" then
      some ("🔍 **Checking Schema:** `" ++ table_names ++ "`\n\n")
    else
      some "🔍 **Checking Schema...**\n\n"
  else if name = "sql_db_list_tables" then
    some "📋 **Listing Tables...**\n\n"
  else if name = "sql_db_query_checker" then
    some "✅ **Validating Query...**\n\n"
  else
    none

/-- Embedding of `DeepAgent._format_tool_result` (returns `none` where the
source returns `None`, i.e. for tool names not containing "sql"). -/
def format_tool_result (name : String) (content : String) : Option String :=
  if strContains (py_lower name) "sql" then
    if !strContains (py_lower content) "error" then
      some "✓ Query executed successfully\n\n"
    else
      some ("✗ **Query failed:** " ++ py_strip (py_take content 300) ++ "\n\n")
  else
    none

end AixDB

namespace AixDB

/-- Content of an `AIMessage`: either a plain string or a list of parts,
each part being a dict from which only the "type" and "text" fields are
read (lines 676-683 of `deep_research_agent.py`). -/
inductive AIContent where
  | str (s : String)
  | parts (ps : List (String × String))
deriving Repr, DecidableEq

/-- Join performed on multi-part `AIMessage` content: keep the parts whose
"type" is "text", take their "text" fields and join with newlines. -/
def ai_content_text : AIContent → String
  | .str s => s
  | .parts ps =>
      String.intercalate "\n" ((ps.filter (fun p => p.1 = "text")).map (fun p => p.2))

/-- One entry of `AIMessage.tool_calls`. -/
structure ToolCall where
  name : String
  args : List (String × ArgVal)
deriving Repr, DecidableEq

/-- A transcript message (`HumanMessage` / `AIMessage` / `ToolMessage`). -/
inductive Msg where
  | human (content : String)
  | ai (content : AIContent) (tool_calls : List ToolCall)
  | tool (name : String) (content : String)
deriving Repr, DecidableEq

/-- State of the output channel as seen by the pipeline: a write-attempt
counter and the frames delivered so far. -/
structure WriteSt where
  wclock : Nat
  frames : List Frame
deriving Repr

/-- One `_safe_write` against the boolean channel oracle `chan` (`chan i` =
whether the i-th write attempt is accepted; a rejected write fails with a
connection error, so `_safe_write` returns `False` and delivers nothing). -/
def attempt_write (chan : Nat → Bool) (st : WriteSt) (content : String)
    (message_type : String := "continue") (data_type : String := ANSWER_DT) :
    WriteSt × Bool :=
  if chan st.wclock then
    ({ wclock := st.wclock + 1,
       frames := st.frames ++ [create_response content message_type data_type] },
     true)
  else
    ({ st with wclock := st.wclock + 1 }, false)

/-- Tool-call loop inside `_print_message` (lines 698-717): for each tool
call, poll cancellation, format, write (type "info"), and append the text
to `t02_answer_data` only after a successful write. -/
def print_tool_calls (chan : Nat → Bool) (cancelled : Bool) :
    List ToolCall → WriteSt → List String → WriteSt × List String × Bool
  | [], w, ans => (w, ans, true)
  | tc :: rest, w, ans =>
      if cancelled then (w, ans, false)
      else
        let name := tc.name
        let args := tc.args
        if strContains (py_lower name) "upload" && strContains (py_lower name) "html"
            && cancelled then
          (w, ans, false)
        else
          match format_tool_call name args with
          | some tool_msg =>
              let (w1, okw) := attempt_write chan w tool_msg "info" ANSWER_DT
              if !okw then (w1, ans, false)
              else print_tool_calls chan cancelled rest w1 (ans ++ [tool_msg])
          | none => print_tool_calls chan cancelled rest w ans

/-- Embedding of `DeepAgent._print_message`.  `cancelled` is the value of
the task's cancellation flag during the rendering of this message (see the
granularity note at the top of the file).  Returns the updated channel
state, the updated `t02_answer_data`, and the boolean result of
`_print_message` (`false` = cancelled or connection closed). -/
def print_message (chan : Nat → Bool) (cancelled : Bool) (msg : Msg)
    (w : WriteSt) (ans : List String) : WriteSt × List String × Bool :=
  if cancelled then (w, ans, false)
  else
    match msg with
    | .human content =>
        if content ≠ "" && py_strip content ≠ "" then
          let formatted_user_msg := format_user_message content
          let ans1 := ans ++ [formatted_user_msg]
          let (w1, okw) := attempt_write chan w formatted_user_msg "continue" ANSWER_DT
          (w1, ans1, okw)
        else (w, ans, true)
    | .ai content tool_calls =>
        let contentS := ai_content_text content
        if contentS ≠ "" && py_strip contentS ≠ "" then
          if cancelled then (w, ans, false)
          else
            let formatted_content := format_agent_content contentS
            let ans1 := ans ++ [formatted_content]
            let (w1, okw) := attempt_write chan w formatted_content "continue" ANSWER_DT
            if !okw then (w1, ans1, false)
            else print_tool_calls chan cancelled tool_calls w1 ans1
        else
          print_tool_calls chan cancelled tool_calls w ans
    | .tool name content =>
        if cancelled then (w, ans, false)
        else
          let content_str := content
          match format_tool_result name content_str with
          | some tool_result_msg =>
              let msg_type :=
                if strContains (py_lower content_str) "error" then "error" else "info"
              let (w1, okw) := attempt_write chan w tool_result_msg msg_type ANSWER_DT
              if !okw then (w1, ans, false)
              else (w1, ans ++ [tool_result_msg], true)
          | none => (w, ans, true)

end AixDB

namespace AixDB

/-- State threaded through the snapshot loop of `_stream_agent_response`:
the Delivery Cursor `printed` (= `printed_count`), the cancellation poll
counter `clock`, the channel state `w`, the accumulator `answers`
(= `t02_answer_data`), the list `rendered` of (transcript index, message)
pairs handed to `_print_message`, the `connection_closed` flag, and
`exited` (= the early `return` taken after an observed cancellation). -/
structure LoopSt where
  printed : Nat
  clock : Nat
  w : WriteSt
  answers : List String
  rendered : List (Nat × Msg)
  closed : Bool
  exited : Bool
deriving Repr

/-- Initial loop state (`printed_count = 0`, `connection_closed = False`). -/
def initLoopSt : LoopSt :=
  { printed := 0, clock := 0, w := { wclock := 0, frames := [] },
    answers := [], rendered := [], closed := false, exited := false }

/-- Embedding of `DeepAgent._handle_task_cancellation`: write the notice
(type "info") and then the terminal frame (type "end"), ignoring the
success flags of both writes. -/
def handle_task_cancellation (chan : Nat → Bool) (w : WriteSt)
    (is_user_cancelled : Bool) : WriteSt :=
  let message :=
    if is_user_cancelled then "\n> ⚠️ 任务已被用户取消"
    else "\n> ⚠️ 连接已断开，任务已中断"
  let (w1, _) := attempt_write chan w message "info" ANSWER_DT
  let (w2, _) := attempt_write chan w1 "" "end" STREAM_END_DT
  w2

/-- Per-message loop over one batch `messages[printed_count:]` (lines
442-453): poll the cancellation flag before each message; on cancellation
emit the notice + end pair and return; otherwise render the message and,
if the connection is reported closed, break out of the batch. `idx` is the
transcript index of the head of the remaining batch. -/
def process_batch (chan : Nat → Bool) (cancelled : Nat → Bool) :
    List Msg → Nat → LoopSt → LoopSt
  | [], _, st => st
  | m :: rest, idx, st =>
      let flag := cancelled st.clock
      let st1 := { st with clock := st.clock + 1 }
      if flag then
        { st1 with w := handle_task_cancellation chan st1.w true, exited := true }
      else
        let (w1, ans1, okm) := print_message chan flag m st1.w st1.answers
        let st2 := { st1 with
          w := w1,
          answers := ans1,
          rendered := st1.rendered ++ [(idx, m)] }
        if !okm then { st2 with closed := true }
        else process_batch chan cancelled rest (idx + 1) st2

/-- One iteration of `async for chunk in agent.astream(...)` (lines
431-470): skip if the loop has already returned or broken; poll the flag
at the top; process the slice of messages beyond the Delivery Cursor and
advance the cursor to the full snapshot length.  (The `response.flush`
call is a no-op in the model; a connection failure there is just another
disconnect path.) -/
def process_chunk (chan : Nat → Bool) (cancelled : Nat → Bool)
    (st : LoopSt) (messages : List Msg) : LoopSt :=
  if st.exited || st.closed then st
  else
    let flag := cancelled st.clock
    let st1 := { st with clock := st.clock + 1 }
    if flag then
      { st1 with w := handle_task_cancellation chan st1.w true, exited := true }
    else if st1.printed < messages.length then
      let st2 := process_batch chan cancelled (messages.drop st1.printed)
        st1.printed st1
      if st2.exited then st2
      else { st2 with printed := messages.length }
    else st1

/-- The full snapshot loop. -/
def stream_loop (chan : Nat → Bool) (cancelled : Nat → Bool)
    (snapshots : List (List Msg)) (st : LoopSt) : LoopSt :=
  snapshots.foldl (process_chunk chan cancelled) st

/-- What `agent.astream` does after yielding its snapshots: finish
normally, raise an exception, or be cancelled (`asyncio.CancelledError`). -/
inductive TailOutcome where
  | done
  | raiseExn (e : Exn)
  | cancelledError
deriving Repr

/-- Inputs of one `_stream_agent_response` run. -/
structure StreamEnv where
  snapshots : List (List Msg)
  tail : TailOutcome
  cancelled : Nat → Bool
  chan : Nat → Bool
  uuid : String
  session : String
  query : String
  datasource_id : Nat

/-- Record written by `add_user_record` in the `finally` block. -/
structure SavedRecord where
  uuid : String
  session : String
  query : String
  answers : List String
  datasource_id : Nat
deriving Repr, DecidableEq

/-- Timeout remediation text (lines 503-513). -/
def timeout_user_msg : String :=
  "\n> ⚠️ **LLM 调用超时**\n\n请求处理时间过长，可能的原因：\n- 数据量较大，查询执行时间较长\n- 网络连接不稳定\n- 模型响应较慢\n\n建议：\n- 尝试简化查询条件\n- 检查网络连接\n- 稍后重试"

/-- Generic diagnostic text for a non-timeout runtime failure (lines
526-531). -/
def stream_error_user_msg (e : Exn) : String :=
  "\n> ❌ **处理异常**\n\n错误类型: " ++ e.typeName ++ "\n错误信息: "
    ++ py_take e.message 200 ++ "\n\n请稍后重试，如问题持续存在请联系管理员。"

/-- Result of `_stream_agent_response`: final loop state, the record
persisted by the `finally` block (if any), and whether the
`asyncio.CancelledError` was re-raised to `run_agent`. -/
structure StreamResult where
  st : LoopSt
  persisted : Option SavedRecord
  reraisedCancelled : Bool
deriving Repr

/-- Embedding of `DeepAgent._stream_agent_response`: run the snapshot
loop; if it neither returned early nor broke on a closed connection,
handle the tail outcome of `agent.astream` (outer `except` clauses,
lines 471-539); then run the `finally` block (lines 540-564), which
persists the exchange record unless the task is cancelled at that
moment. -/
def stream_agent_response (env : StreamEnv) (st0 : LoopSt) : StreamResult :=
  let st := stream_loop env.chan env.cancelled env.snapshots st0
  let step :=
    if st.exited || st.closed then (st, false)
    else
      match env.tail with
      | .done => (st, false)
      | .raiseExn e =>
          if is_connection_error e then ({ st with closed := true }, false)
          else if is_timeout_exn e then
            let (w1, _) := attempt_write env.chan st.w timeout_user_msg
              "error" ANSWER_DT
            let (w2, _) := attempt_write env.chan w1 "" "end" STREAM_END_DT
            ({ st with w := w2 }, false)
          else
            let (w1, _) := attempt_write env.chan st.w (stream_error_user_msg e)
              "error" ANSWER_DT
            let (w2, _) := attempt_write env.chan w1 "" "end" STREAM_END_DT
            ({ st with w := w2 }, false)
      | .cancelledError =>
          let is_user := env.cancelled st.clock
          let st1 := { st with clock := st.clock + 1 }
          ({ st1 with w := handle_task_cancellation env.chan st1.w is_user },
           true)
  let st1 := step.1
  let flag := env.cancelled st1.clock
  let st2 := { st1 with clock := st1.clock + 1 }
  let persisted :=
    if flag then none
    else some { uuid := env.uuid, session := env.session, query := env.query,
                answers := st2.answers, datasource_id := env.datasource_id }
  { st := st2, persisted := persisted, reraisedCancelled := step.2 }

end AixDB

namespace AixDB

/-- The `running_tasks` dict, as an association list with the dict-key
semantics (at most one entry per task id; deletion removes the key). -/
abbrev Registry := List (String × Bool)

/-- Registration at the start of `run_agent` (line 243):
`self.running_tasks[task_id] = {"cancelled": False}` — a dict assignment,
overwriting any stale entry for the same id. -/
def registry_start (reg : Registry) (task_id : String) : Registry :=
  (task_id, false) :: reg.filter (fun p => p.1 ≠ task_id)

/-- Cleanup in the `finally` of `run_agent` (lines 356-359):
`if task_id in self.running_tasks: del self.running_tasks[task_id]`.
On a dict this removes the key if present and does nothing otherwise. -/
def registry_end (reg : Registry) (task_id : String) : Registry :=
  reg.filter (fun p => p.1 ≠ task_id)

/-- Embedding of `DeepAgent.get_running_tasks`. -/
def get_running_tasks (reg : Registry) : List String :=
  reg.map (fun p => p.1)

/-- Embedding of `DeepAgent.cancel_task`: set the flag if the id is
registered and report whether it was. -/
def cancel_task (reg : Registry) (task_id : String) : Registry × Bool :=
  if reg.any (fun p => p.1 = task_id) then
    (reg.map (fun p => if p.1 = task_id then (p.1, true) else p), true)
  else
    (reg, false)

/-- Embedding of `DeepAgent._is_task_cancelled` over the registry value. -/
def is_task_cancelled (reg : Registry) (task_id : String) : Bool :=
  reg.any (fun p => p.1 = task_id && p.2)

/-- Inputs of one `run_agent` call.  `setup` is an exception raised after
registration but before `_stream_agent_response` starts (e.g. the
`ValueError` from `_create_sql_deep_agent` when the datasource does not
exist); `datasource_present` is the `if not datasource_id` guard. -/
structure AgentEnv where
  task_id : String
  registry0 : Registry
  datasource_present : Bool
  setup : Option Exn
  stream : StreamEnv

/-- Observable outcome of one `run_agent` call. -/
structure RunResult where
  frames : List Frame
  persisted : Option SavedRecord
  registry : Registry
deriving Repr

/-- Embedding of `DeepAgent.run_agent` around `_stream_agent_response`:
the missing-datasource early return (lines 232-237), registration, the
outer exception handlers (lines 325-355) and the registry cleanup in the
`finally` (lines 356-359).  Exceptions raised before streaming are
handled by the generic `except Exception` branch: silent for connection
errors, a single error frame (and no end frame) otherwise.  A re-raised
`asyncio.CancelledError` from the stream triggers
`_handle_task_cancellation` a second time. -/
def run_agent (env : AgentEnv) : RunResult :=
  if !env.datasource_present then
    let w0 : WriteSt := { wclock := 0, frames := [] }
    let (w1, _) := attempt_write env.stream.chan w0
      "❌ **错误**: 必须提供数据源ID (datasource_id)" "error" ANSWER_DT
    { frames := w1.frames, persisted := none, registry := env.registry0 }
  else
    let reg1 := registry_start env.registry0 env.task_id
    let out :=
      match env.setup with
      | some e =>
          if is_connection_error e then
            (([] : List Frame), (none : Option SavedRecord))
          else
            let w0 : WriteSt := { wclock := 0, frames := [] }
            let (w1, _) := attempt_write env.stream.chan w0
              ("❌ **错误**: 智能体运行异常\n\n```\n" ++ e.message ++ "\n```\n")
              "error" ANSWER_DT
            (w1.frames, (none : Option SavedRecord))
      | none =>
          let sr := stream_agent_response env.stream initLoopSt
          if sr.reraisedCancelled then
            let is_user := env.stream.cancelled sr.st.clock
            ((handle_task_cancellation env.stream.chan sr.st.w is_user).frames,
             sr.persisted)
          else
            (sr.st.w.frames, sr.persisted)
    { frames := out.1, persisted := out.2,
      registry := registry_end reg1 env.task_id }

end AixDB

namespace AixDB

/-- One Call Record of the session ledger (spec §3).  The ledger is
append-only; newest record last. -/
structure CallRecord where
  tool_name : String
  fingerprint : Option String
  success : Bool
deriving Repr, DecidableEq

/-- Modelled from the spec: query fingerprinting of
`tool_call_manager` (the module `agent/deepagent/tools/tool_call_manager.py`
is imported by `native_sql_tools.py` but is not among the analysed
sources).  Per spec §4.2, "fingerprinting normalizes whitespace/case so
cosmetically different but semantically identical queries still collide":
lowercase the text, split on whitespace and re-join with single spaces. -/
def query_fingerprint (q : String) : String :=
  String.intercalate " "
    ((py_split_ws (py_lower q)).filter (fun t => t ≠ ""))

/-- Length of the run of elements satisfying `p` at the head of a list. -/
def leadingCount (p : α → Bool) : List α → Nat
  | [] => 0
  | x :: xs => if p x then leadingCount p xs + 1 else 0

/-- Number of consecutive most-recent ledger records matching the given
`(tool_name, fingerprint)` pair. -/
def trailing_repeats (ledger : List CallRecord) (tool_name : String)
    (fp : Option String) : Nat :=
  leadingCount (fun r => r.tool_name == tool_name && r.fingerprint == fp)
    ledger.reverse

/-- Modelled from the spec: `check_before_call` of the (missing)
`tool_call_manager`, i.e. the Call Decision of the Tool-Call Governor
(spec §4.2): (1) reject if the same `(tool_name, query_fingerprint)`
appears more than `K` times consecutively in the session's recent
history, with a reason explaining the repetition and instructing reuse of
prior results; (2) reject if recent calls exceed the per-session ceiling
`M` (flood guard); (3) otherwise allow.  Returns `(allowed, reason)` with
`reason` nonempty iff disallowed. -/
def check_before_call (K M : Nat) (ledger : List CallRecord)
    (tool_name : String) (query : Option String) : Bool × String :=
  let fp := query.map query_fingerprint
  let repeats := trailing_repeats ledger tool_name fp
  if K ≤ repeats then
    (false,
     "Tool call rejected: the same query has already been repeated "
       ++ toString repeats
       ++ " times consecutively. Reuse the results already obtained instead of issuing the same call again.")
  else if M ≤ ledger.length then
    (false,
     "Tool call rejected: too many tool calls in this session. Continue with the information already gathered.")
  else
    (true, "")

/-- Modelled from the spec: `record_call` of the (missing)
`tool_call_manager` — append one Call Record (spec §4.2). -/
def record_call (ledger : List CallRecord) (tool_name : String)
    (success : Bool) (query : Option String) : List CallRecord :=
  ledger ++ [{ tool_name := tool_name,
               fingerprint := query.map query_fingerprint,
               success := success }]

/-- The forbidden-keyword list of `sql_db_query` / `sql_db_query_checker`. -/
def forbidden_keywords : List String :=
  ["INSERT", "UPDATE", "DELETE", "DROP", "ALTER", "TRUNCATE", "CREATE"]

/-- One result row of `DatasourceConnectionUtil.execute_query`, as the
ordered (column, value) pairs of the row dict, all values already
stringified. -/
abbrev Row := List (String × String)

/-- Python `row.get(col, "")` over a modelled row (values as strings). -/
def row_get (row : Row) (col : String) : String :=
  match row.find? (fun p => p.1 == col) with
  | some p => p.2
  | none => ""

/-- Python `s.ljust(n)`. -/
def ljust (s : String) (n : Nat) : String :=
  s ++ String.mk (List.replicate (n - s.length) ' ')

/-- Result-table formatting of `sql_db_query` (lines 305-344 of
`native_sql_tools.py`), for a nonempty `result_data`. -/
def format_query_result (result_data : List Row) : String :=
  let max_rows := 50
  let result_rows := result_data.take max_rows
  let head_str :=
    if max_rows < result_data.length then
      "✅ 查询成功，返回 " ++ toString result_data.length ++ " 行数据（显示前 "
        ++ toString max_rows ++ " 行）:\n\n"
    else
      "✅ 查询成功，返回 " ++ toString result_data.length ++ " 行数据:\n\n"
  let body :=
    match result_rows with
    | [] => ""
    | row0 :: _ =>
        let columns := row0.map (fun p => p.1)
        let col_width := fun (col : String) =>
          min
            (max col.length
              ((result_rows.map (fun row => (py_take (row_get row col) 50).length)).foldl
                max 0))
            50
        let header := String.intercalate " | "
          (columns.map (fun col => ljust col (col_width col)))
        let separator := String.mk (List.replicate (min header.length 200) '-')
        let rows_str := String.join (result_rows.map (fun row =>
          String.intercalate " | "
            (columns.map (fun col => ljust (py_take (row_get row col) 50) (col_width col)))
          ++ "\n"))
        header ++ "\n" ++ separator ++ "\n" ++ rows_str
  head_str ++ body ++ "\n✅ 查询已完成。请基于以上结果进行分析，无需重复执行相同查询。"

/-- Outcome of the external `DatasourceConnectionUtil.execute_query` call:
rows on success, or the text of the raised exception. -/
inductive ExecOutcome where
  | ok (rows : List Row)
  | raiseExn (msg : String)
deriving Repr

/-- Observable outcome of one tool invocation: the string returned to the
agent, the session ledger afterwards, and whether the call reached query
execution. -/
structure ToolOut where
  result : String
  ledger : List CallRecord
  executed : Bool
deriving Repr

/-- Embedding of the tool `sql_db_query` (lines 262-366 of
`native_sql_tools.py`).  `ds_set` is the `if not datasource_id or not
datasource_type or not datasource_config` guard; `K`/`M` are the governor
thresholds of the spec-modelled `check_before_call`; `exec` is the
outcome of the external query execution.  The StarRocks/Doris-specific
rewording of the failure text (`_handle_starrocks_error`, consulted at
lines 350-355 after the recording at line 347) only rewrites the returned
error string and is not modelled; ledger and execution behaviour are
unaffected by it. -/
def sql_db_query (ds_set : Bool) (K M : Nat) (ledger : List CallRecord)
    (query : String) (exec : ExecOutcome) : ToolOut :=
  if !ds_set then
    { result := "错误: 未设置数据源信息", ledger := ledger, executed := false }
  else
    let query_upper := py_upper (py_strip query)
    match forbidden_keywords.find? (fun keyword => strContains query_upper keyword) with
    | some keyword =>
        { result := "错误: 不允许执行 " ++ keyword ++ " 操作，只允许 SELECT 查询",
          ledger := ledger, executed := false }
    | none =>
        if !py_startsWith query_upper "SELECT" then
          { result := "错误: 只允许执行 SELECT 查询", ledger := ledger,
            executed := false }
        else
          let check := check_before_call K M ledger "sql_db_query" (some query)
          if !check.1 then
            { result := check.2, ledger := ledger, executed := false }
          else
            match exec with
            | .ok result_data =>
                let ledger1 := record_call ledger "sql_db_query" true (some query)
                if result_data.isEmpty then
                  { result := "✅ 查询成功执行，但没有返回数据。",
                    ledger := ledger1, executed := true }
                else
                  { result := format_query_result result_data,
                    ledger := ledger1, executed := true }
            | .raiseExn e =>
                let ledger1 := record_call ledger "sql_db_query" false (some query)
                let error_msg := if 200 < e.length then py_take e 200 ++ "..." else e
                { result := "SQL 执行失败: " ++ error_msg
                    ++ "\n\n请检查 SQL 语法和表结构是否正确。如果之前已获取表架构，请直接使用已有信息，无需重复查询。",
                  ledger := ledger1, executed := true }

/-- Embedding of the tool `sql_db_query_checker` (lines 408-458 of
`native_sql_tools.py`).  The `executed` field is `false` throughout: this
tool never touches the database. -/
def sql_db_query_checker (K M : Nat) (ledger : List CallRecord)
    (query : String) : ToolOut :=
  let check := check_before_call K M ledger "sql_db_query_checker" none
  if !check.1 then
    { result := check.2, ledger := ledger, executed := false }
  else
    let query_upper := py_upper (py_strip query)
    if query_upper = "" then
      { result := "错误: SQL 查询为空",
        ledger := record_call ledger "sql_db_query_checker" false none,
        executed := false }
    else
      match forbidden_keywords.find? (fun keyword => strContains query_upper keyword) with
      | some keyword =>
          { result := "错误: 不允许执行 " ++ keyword ++ " 操作，只允许 SELECT 查询",
            ledger := record_call ledger "sql_db_query_checker" false none,
            executed := false }
      | none =>
          if !py_startsWith query_upper "SELECT" then
            { result := "错误: 只允许执行 SELECT 查询",
              ledger := record_call ledger "sql_db_query_checker" false none,
              executed := false }
          else
            let issues :=
              (if !strContains query_upper "FROM" then ["缺少 FROM 子句"] else [])
              ++ (if query.toList.count '(' ≠ query.toList.count ')' then
                    ["括号不匹配"] else [])
              ++ (if query.toList.count '\'' % 2 ≠ 0 then ["单引号不匹配"] else [])
            let ledger1 := record_call ledger "sql_db_query_checker" true none
            if issues ≠ [] then
              { result := "SQL 语法警告: " ++ String.intercalate ", " issues,
                ledger := ledger1, executed := false }
            else
              { result := "✅ SQL 查询语法检查通过，可以执行。",
                ledger := ledger1, executed := false }

end AixDB

namespace AixDB

/-- Sequential rendering of a list of messages with an uncancelled flag:
the reference behaviour of the per-message loop when no cancellation and
no disconnection intervene. -/
def render_batch (chan : Nat → Bool) (msgs : List Msg) (w : WriteSt)
    (ans : List String) : WriteSt × List String :=
  match msgs with
  | [] => (w, ans)
  | m :: rest =>
      let r := print_message chan false m w ans
      render_batch chan rest r.1 r.2.1

/-- Iterated invocation of `sql_db_query` on a list of queries against one
session ledger, each call succeeding with an empty result set when it
reaches execution. -/
def sql_db_query_run (K M : Nat) : List String → List CallRecord → List ToolOut
  | [], _ => []
  | q :: qs, ledger =>
      let out := sql_db_query true K M ledger q (.ok [])
      out :: sql_db_query_run K M qs out.ledger

/-- The Call Record produced by a successful `sql_db_query` call whose
query has fingerprint `fp`. -/
def repeat_record (fp : String) : CallRecord :=
  { tool_name := "sql_db_query", fingerprint := some fp, success := true }

/-- The safety predicate of `sql_db_query`: the stripped uppercased query
starts with "SELECT" and contains none of the forbidden keywords. -/
def sql_safety_ok (query : String) : Prop :=
  py_startsWith (py_upper (py_strip query)) "SELECT" = true ∧
    ∀ kw ∈ forbidden_keywords, strContains (py_upper (py_strip query)) kw = false

instance (query : String) : Decidable (sql_safety_ok query) := by
  unfold sql_safety_ok; infer_instance

/-- A task run that completes normally: two snapshots, a healthy channel,
no cancellation, no setup failure. -/
def env_normal_completion : AgentEnv :=
  { task_id := "u1", registry0 := [], datasource_present := true,
    setup := none,
    stream := { snapshots := [[Msg.human "hi"],
                              [Msg.human "hi", Msg.ai (.str "thinking") []]],
                tail := .done,
                cancelled := fun _ => false, chan := fun _ => true,
                uuid := "x", session := "s", query := "hi",
                datasource_id := 1 } }

/-- A task run whose setup fails before streaming starts (the `ValueError`
raised by `_create_sql_deep_agent` for an unknown datasource), with no
cancellation and a healthy channel. -/
def env_setup_failure : AgentEnv :=
  { task_id := "u1", registry0 := [], datasource_present := true,
    setup := some { typeName := "ValueError", message := "数据源 5 不存在" },
    stream := { snapshots := [], tail := .done,
                cancelled := fun _ => false, chan := fun _ => true,
                uuid := "x", session := "s", query := "hi",
                datasource_id := 5 } }

end AixDB

namespace AixDB

/-- Claim C8: retirement of a Task Registry entry is idempotent (running
the termination path twice for the same task id leaves the registry as
after running it once), `run_agent` retires the entry on every exit path
(its `finally` produces exactly the retired registry whatever branch was
taken), and `get_running_tasks` never contains a retired id. -/
theorem c8_idempotent_retirement (reg : Registry) (tid : String)
    (env : AgentEnv) (h : env.datasource_present = true) :
    registry_end (registry_end reg tid) tid = registry_end reg tid ∧
    tid ∉ get_running_tasks (registry_end reg tid) ∧
    (run_agent env).registry =
      registry_end (registry_start env.registry0 env.task_id) env.task_id ∧
    env.task_id ∉ get_running_tasks (run_agent env).registry := by
  have hend : ∀ (r : Registry) (t : String),
      t ∉ get_running_tasks (registry_end r t) := by
    intro r t ht
    simp only [get_running_tasks, registry_end, List.mem_map,
      List.mem_filter] at ht
    obtain ⟨p, ⟨_, hne⟩, hp⟩ := ht
    simp [hp] at hne
  have hreg : (run_agent env).registry =
      registry_end (registry_start env.registry0 env.task_id) env.task_id := by
    simp only [run_agent, h]
    simp
  refine ⟨?_, hend reg tid, hreg, ?_⟩
  · simp [registry_end, List.filter_filter]
  · rw [hreg]; exact hend _ _

/-- Claim C8 witness: concrete instance for the normal-completion run. -/
theorem c8_idempotent_retirement_witness :
    registry_end (registry_end [("u1", false), ("v2", true)] "u1") "u1" =
      registry_end [("u1", false), ("v2", true)] "u1" ∧
    "u1" ∉ get_running_tasks (registry_end [("u1", false), ("v2", true)] "u1") ∧
    (run_agent env_normal_completion).registry =
      registry_end (registry_start env_normal_completion.registry0
        env_normal_completion.task_id) env_normal_completion.task_id ∧
    env_normal_completion.task_id ∉
      get_running_tasks (run_agent env_normal_completion).registry :=
  c8_idempotent_retirement [("u1", false), ("v2", true)] "u1"
    env_normal_completion rfl

end AixDB

namespace AixDB

/-- Claim C9 counterexample: a tool-result message whose tool name does not
contain "sql" (here the upload tool) produces no banner at all —
`_format_tool_result` returns `None` and `_print_message` emits no frame —
refuting "for every tool-result message, rendering produces a
success/failure banner". -/
theorem c9_counterexample :
    format_tool_result "upload_html_report_to_minio" "ok" = none ∧
    (print_message (fun _ => true) false
        (Msg.tool "upload_html_report_to_minio" "ok")
        { wclock := 0, frames := [] } []).1.frames = [] := by
  constructor
  · rfl
  · rfl

set_option maxRecDepth 2048 in
/-- Claim C9 (amended to tool names containing "sql", which is the guard
the source applies first): for a tool-result message whose name contains
"sql" (case-insensitively), rendering produces a banner; failure is
detected by a case-insensitive substring check for "error" in the result
text; on success the banner is a fixed string carrying no result text; on
failure the surfaced text is exactly the 300-character prefix of the raw
result (trimmed), and the frame is classified "error" (success frames are
classified "info"). -/
theorem c9_tool_result_banner (name content : String)
    (h : strContains (py_lower name) "sql" = true) :
    (strContains (py_lower content) "error" = false →
        format_tool_result name content =
          some "✓ Query executed successfully\n\n") ∧
    (strContains (py_lower content) "error" = true →
        format_tool_result name content =
          some ("✗ **Query failed:** " ++ py_strip (py_take content 300) ++ "\n\n") ∧
        (py_take content 300).length ≤ 300) ∧
    (∀ (w : WriteSt) (ans : List String), ∃ banner,
        format_tool_result name content = some banner ∧
        (print_message (fun _ => true) false (Msg.tool name content) w ans).1.frames
          = w.frames ++ [create_response banner
              (if strContains (py_lower content) "error" then "error" else "info")
              ANSWER_DT]) := by
  refine ⟨?_, ?_, ?_⟩
  · intro he
    simp [format_tool_result, h, he]
  · intro he
    refine ⟨by simp [format_tool_result, h, he], ?_⟩
    have hlen : (py_take content 300).length = (content.data.take 300).length := rfl
    rw [hlen, List.length_take]
    exact min_le_left _ _
  · intro w ans
    by_cases he : strContains (py_lower content) "error" = true
    · refine ⟨"✗ **Query failed:** " ++ py_strip (py_take content 300) ++ "\n\n",
        by simp [format_tool_result, h, he], ?_⟩
      simp [print_message, format_tool_result, h, he, attempt_write]
    · simp only [Bool.not_eq_true] at he
      refine ⟨"✓ Query executed successfully\n\n",
        by simp [format_tool_result, h, he], ?_⟩
      simp [print_message, format_tool_result, h, he, attempt_write]

/-- Claim C9 witness: concrete failing SQL tool result. -/
theorem c9_tool_result_banner_witness :
    strContains (py_lower "sql_db_query") "sql" = true ∧
    (strContains (py_lower "Error: no such table") "error" = true →
        format_tool_result "sql_db_query" "Error: no such table" =
          some ("✗ **Query failed:** "
            ++ py_strip (py_take "Error: no such table" 300) ++ "\n\n") ∧
        (py_take "Error: no such table" 300).length ≤ 300) :=
  ⟨by decide, (c9_tool_result_banner "sql_db_query" "Error: no such table"
      (by decide)).2.1⟩

end AixDB

namespace AixDB

/-- Claim C10: `sql_db_query` executes no database query and returns an
error string (one starting with "错误") whenever the stripped uppercased
query does not start with "SELECT" or contains one of the forbidden
keywords as a substring anywhere — including inside identifiers — and,
conversely, only queries satisfying the safety predicate ever reach query
execution. -/
theorem c10_select_only_guard (ds_set : Bool) (K M : Nat)
    (ledger : List CallRecord) (query : String) (exec : ExecOutcome) :
    (¬ sql_safety_ok query →
        (sql_db_query ds_set K M ledger query exec).executed = false ∧
        ∃ rest, (sql_db_query ds_set K M ledger query exec).result =
          "错误" ++ rest) ∧
    ((sql_db_query ds_set K M ledger query exec).executed = true →
        sql_safety_ok query) := by
  by_cases hds : ds_set
  · cases hfind : forbidden_keywords.find?
        (fun keyword => strContains (py_upper (py_strip query)) keyword) with
    | some kw =>
        constructor
        · intro _
          refine ⟨by simp [sql_db_query, hds, hfind], ?_⟩
          refine ⟨": 不允许执行 " ++ (kw ++ " 操作，只允许 SELECT 查询"), ?_⟩
          simp only [sql_db_query, hds, hfind]
          conv_rhs => rw [← String.append_assoc]
          simp [String.append_assoc]
        · intro hexec
          exfalso
          simp [sql_db_query, hds, hfind] at hexec
    | none =>
        have hkw : ∀ kw ∈ forbidden_keywords,
            strContains (py_upper (py_strip query)) kw = false := by
          intro kw hmem
          have := List.find?_eq_none.mp hfind kw hmem
          simpa using this
        by_cases hstart : py_startsWith (py_upper (py_strip query)) "SELECT" = true
        · have hsafe : sql_safety_ok query := ⟨hstart, hkw⟩
          refine ⟨fun hns => absurd hsafe hns, fun _ => hsafe⟩
        · simp only [Bool.not_eq_true] at hstart
          constructor
          · intro _
            refine ⟨by simp [sql_db_query, hds, hfind, hstart], ?_⟩
            exact ⟨": 只允许执行 SELECT 查询", by simp [sql_db_query, hds, hfind, hstart]⟩
          · intro hexec
            exfalso
            simp [sql_db_query, hds, hfind, hstart] at hexec
  · simp only [Bool.not_eq_true] at hds
    constructor
    · intro _
      exact ⟨by simp [sql_db_query, hds], ⟨": 未设置数据源信息",
        by simp [sql_db_query, hds]⟩⟩
    · intro hexec
      exfalso
      simp [sql_db_query, hds] at hexec

/-- Claim C10 witness: a SELECT referencing a column named `created_at`
is rejected (the uppercased text contains "CREATE" inside the
identifier), no execution happens, and the result is an error string. -/
theorem c10_select_only_guard_witness :
    ¬ sql_safety_ok "SELECT created_at FROM t" ∧
    (sql_db_query true 3 100 [] "SELECT created_at FROM t" (.ok [])).executed
      = false ∧
    ∃ rest, (sql_db_query true 3 100 [] "SELECT created_at FROM t"
      (.ok [])).result = "错误" ++ rest := by
  have hns : ¬ sql_safety_ok "SELECT created_at FROM t" := by decide
  have h := (c10_select_only_guard true 3 100 [] "SELECT created_at FROM t"
    (.ok [])).1 hns
  exact ⟨hns, h.1, h.2⟩

/-- Claim C5 counterexample: a call of `sql_db_query` that is rejected by
the pre-execution safety check (here a DROP statement) appends no Call
Record at all — the ledger is unchanged — refuting "exactly one Call
Record is appended per attempted call". -/
theorem c5_counterexample :
    (sql_db_query true 3 100 [] "DROP TABLE users" (.ok [])).ledger = [] ∧
    (sql_db_query true 3 100
        [{ tool_name := "sql_db_query", fingerprint := some "select 1",
           success := true }]
        "DROP TABLE users" (.ok [])).ledger.length = 1 := by
  constructor
  · rfl
  · rfl

/-- Claim C5 (amended): `sql_db_query` appends exactly one Call Record
when and only when the call reaches query execution (then one record is
appended whether execution succeeds or raises); calls stopped earlier —
missing datasource, safety rejection, or a governor veto — append no
record. -/
theorem c5_ledger_growth (ds_set : Bool) (K M : Nat)
    (ledger : List CallRecord) (query : String) (exec : ExecOutcome) :
    ((sql_db_query ds_set K M ledger query exec).executed = true →
        (sql_db_query ds_set K M ledger query exec).ledger.length
          = ledger.length + 1) ∧
    ((sql_db_query ds_set K M ledger query exec).executed = false →
        (sql_db_query ds_set K M ledger query exec).ledger = ledger) := by
  by_cases hds : ds_set
  · cases hfind : forbidden_keywords.find?
        (fun keyword => strContains (py_upper (py_strip query)) keyword) with
    | some kw =>
        constructor
        · intro hexec; exfalso; simp [sql_db_query, hds, hfind] at hexec
        · intro _; simp [sql_db_query, hds, hfind]
    | none =>
        by_cases hstart : py_startsWith (py_upper (py_strip query)) "SELECT" = true
        · by_cases hchk : (check_before_call K M ledger "sql_db_query"
              (some query)).1 = true
          · cases exec with
            | ok rows =>
                cases hrows : rows.isEmpty <;>
                  constructor <;> intro hx <;>
                    simp [sql_db_query, hds, hfind, hstart, hchk, hrows,
                      record_call] at hx ⊢
            | raiseExn e =>
                constructor <;> intro hx <;>
                  simp [sql_db_query, hds, hfind, hstart, hchk,
                    record_call] at hx ⊢
          · simp only [Bool.not_eq_true] at hchk
            constructor
            · intro hexec; exfalso
              simp [sql_db_query, hds, hfind, hstart, hchk] at hexec
            · intro _; simp [sql_db_query, hds, hfind, hstart, hchk]
        · simp only [Bool.not_eq_true] at hstart
          constructor
          · intro hexec; exfalso
            simp [sql_db_query, hds, hfind, hstart] at hexec
          · intro _; simp [sql_db_query, hds, hfind, hstart]
  · simp only [Bool.not_eq_true] at hds
    constructor
    · intro hexec; exfalso; simp [sql_db_query, hds] at hexec
    · intro _; simp [sql_db_query, hds]

/-- Claim C5 witness: a call that reaches execution appends one record. -/
theorem c5_ledger_growth_witness :
    (sql_db_query true 3 100 [] "SELECT id FROM t" (.ok [])).executed = true ∧
    (sql_db_query true 3 100 [] "SELECT id FROM t" (.ok [])).ledger.length
      = ([] : List CallRecord).length + 1 := by
  have hexec : (sql_db_query true 3 100 [] "SELECT id FROM t"
      (.ok [])).executed = true := by decide
  exact ⟨hexec,
    (c5_ledger_growth true 3 100 [] "SELECT id FROM t" (.ok [])).1 hexec⟩

end AixDB

namespace AixDB

/-- Containment is preserved when text is appended on the right. -/
theorem strContains_append_left (a b pat : String)
    (h : strContains a pat = true) : strContains (a ++ b) pat = true := by
  simp only [strContains, List.any_eq_true, List.mem_range] at h ⊢
  obtain ⟨i, hi, hpre⟩ := h
  refine ⟨i, ?_, ?_⟩
  · rw [String.data_append, List.length_append]
    omega
  · rw [String.data_append,
      List.drop_append_of_le_length (by omega : i ≤ a.data.length)]
    rw [List.isPrefixOf_iff_prefix] at hpre ⊢
    exact hpre.trans (List.prefix_append _ _)

/-- A string containing a nonempty pattern is nonempty. -/
theorem ne_empty_of_strContains (s pat : String)
    (h : strContains s pat = true) (hp : pat ≠ "") : s ≠ "" := by
  intro hs
  subst hs
  simp only [strContains, List.any_eq_true, List.mem_range] at h
  obtain ⟨i, _, hpre⟩ := h
  rw [List.isPrefixOf_iff_prefix] at hpre
  have : pat.data <+: [] := by simpa using hpre
  exact hp (String.ext (by simpa [List.prefix_nil] using this))

/-- The head run counter on a replicated list whose element matches. -/
theorem leadingCount_replicate {α : Type} (p : α → Bool) (r : α) (n : Nat)
    (h : p r = true) : leadingCount p (List.replicate n r) = n := by
  induction n with
  | zero => rfl
  | succ n ih => simp [List.replicate_succ, leadingCount, h, ih]

/-- Trailing-repeat count of a ledger made of `n` identical matching
records. -/
theorem trailing_repeats_replicate (fp : String) (n : Nat) :
    trailing_repeats (List.replicate n (repeat_record fp)) "sql_db_query"
      (some fp) = n := by
  unfold trailing_repeats
  rw [List.reverse_replicate]
  exact leadingCount_replicate _ _ n (by simp [repeat_record])

/-- One allowed step of the repeated-query scenario: with `i` matching
records in the ledger (`i < K`, `i < M`) and a safe query of fingerprint
`fp`, the call executes and the ledger grows to `i + 1` matching
records. -/
theorem sql_db_query_step_allowed (K M : Nat) (fp q : String) (i : Nat)
    (hfp : query_fingerprint q = fp) (hsafe : sql_safety_ok q)
    (hiK : i < K) (hiM : i < M) :
    sql_db_query true K M (List.replicate i (repeat_record fp)) q (.ok []) =
      { result := "✅ 查询成功执行，但没有返回数据。",
        ledger := List.replicate (i + 1) (repeat_record fp),
        executed := true } := by
  obtain ⟨hstart, hkw⟩ := hsafe
  have hfind : forbidden_keywords.find?
      (fun keyword => strContains (py_upper (py_strip q)) keyword) = none :=
    List.find?_eq_none.mpr (fun kw hmem => by simp [hkw kw hmem])
  have hchk : check_before_call K M (List.replicate i (repeat_record fp))
      "sql_db_query" (some q) = (true, "") := by
    simp [check_before_call, hfp, trailing_repeats_replicate,
      Nat.not_le.mpr hiK, Nat.not_le.mpr (by simpa using hiM)]
  simp only [sql_db_query, hfind, hstart, hchk]
  simp [record_call, hfp, List.replicate_succ', repeat_record]

/-- The rejected step: with exactly `K` matching records in the ledger,
the governor vetoes the call; nothing is recorded and the reason is
returned as the tool's string result. -/
theorem sql_db_query_step_rejected (K M : Nat) (fp q : String)
    (hfp : query_fingerprint q = fp) (hsafe : sql_safety_ok q) :
    sql_db_query true K M (List.replicate K (repeat_record fp)) q (.ok []) =
      { result := (check_before_call K M
          (List.replicate K (repeat_record fp)) "sql_db_query" (some q)).2,
        ledger := List.replicate K (repeat_record fp),
        executed := false } ∧
    (check_before_call K M (List.replicate K (repeat_record fp))
        "sql_db_query" (some q)).1 = false := by
  obtain ⟨hstart, hkw⟩ := hsafe
  have hfind : forbidden_keywords.find?
      (fun keyword => strContains (py_upper (py_strip q)) keyword) = none :=
    List.find?_eq_none.mpr (fun kw hmem => by simp [hkw kw hmem])
  have hchk : (check_before_call K M (List.replicate K (repeat_record fp))
      "sql_db_query" (some q)).1 = false := by
    simp [check_before_call, hfp, trailing_repeats_replicate]
  refine ⟨?_, hchk⟩
  simp [sql_db_query, hfind, hstart, hchk]

/-- The veto reason mentions the repetition and is nonempty. -/
theorem check_reason_mentions_repetition (K M : Nat) (fp q : String)
    (hfp : query_fingerprint q = fp) :
    strContains (check_before_call K M
      (List.replicate K (repeat_record fp)) "sql_db_query" (some q)).2
      "repeated" = true ∧
    (check_before_call K M (List.replicate K (repeat_record fp))
      "sql_db_query" (some q)).2 ≠ "" := by
  have hreason : (check_before_call K M
      (List.replicate K (repeat_record fp)) "sql_db_query" (some q)).2 =
      ("Tool call rejected: the same query has already been repeated "
        ++ toString K)
        ++ " times consecutively. Reuse the results already obtained instead of issuing the same call again." := by
    simp [check_before_call, hfp, trailing_repeats_replicate,
      ← String.append_assoc]
  have hcontains : strContains
      "Tool call rejected: the same query has already been repeated "
      "repeated" = true := by decide
  rw [hreason]
  constructor
  · exact strContains_append_left _ _ _ (strContains_append_left _ _ _ hcontains)
  · exact ne_empty_of_strContains _ _
      (strContains_append_left _ _ _ (strContains_append_left _ _ _ hcontains))
      (by decide)

end AixDB

namespace AixDB

/-- Invariant run of the repeated-query scenario: starting from a ledger
of `i` matching records with `i + qs.length = K + 1` and all queries safe
and fingerprint-equivalent, every call but the last executes and the last
is vetoed with a reason mentioning the repetition. -/
theorem c4_aux (K M : Nat) (fp : String) (hKM : K < M) :
    ∀ (qs : List String) (i : Nat),
      (∀ q ∈ qs, query_fingerprint q = fp ∧ sql_safety_ok q) →
      i + qs.length = K + 1 →
      (sql_db_query_run K M qs (List.replicate i (repeat_record fp))).length
          = qs.length ∧
      (∀ o ∈ (sql_db_query_run K M qs
          (List.replicate i (repeat_record fp))).take (qs.length - 1),
        o.executed = true) ∧
      (∀ o ∈ (sql_db_query_run K M qs
          (List.replicate i (repeat_record fp))).drop (qs.length - 1),
        o.executed = false ∧ strContains o.result "repeated" = true ∧
          o.result ≠ "" ∧ o.ledger = List.replicate K (repeat_record fp)) := by
  intro qs
  induction qs with
  | nil =>
      intro i _ _
      simp [sql_db_query_run]
  | cons q qtl ih =>
      intro i hq hlen
      have hqhead := hq q (by simp)
      cases qtl with
      | nil =>
          have hi : i = K := by simpa using hlen
          rw [hi]
          have hstep := sql_db_query_step_rejected K M fp q hqhead.1 hqhead.2
          have hmention := check_reason_mentions_repetition K M fp q hqhead.1
          refine ⟨by simp [sql_db_query_run], by simp, ?_⟩
          intro o ho
          simp only [sql_db_query_run, hstep.1] at ho
          simp at ho
          subst ho
          exact ⟨rfl, hmention.1, hmention.2, rfl⟩
      | cons q2 rest =>
          have hlt : i < K := by
            simp only [List.length_cons] at hlen
            omega
          have hstep := sql_db_query_step_allowed K M fp q i hqhead.1
            hqhead.2 hlt (lt_trans hlt hKM)
          have ih' := ih (i + 1) (fun x hx => hq x (by simp [hx]))
            (by simp only [List.length_cons] at hlen ⊢; omega)
          obtain ⟨ihlen, ihtake, ihdrop⟩ := ih'
          have hrun : sql_db_query_run K M (q :: q2 :: rest)
              (List.replicate i (repeat_record fp)) =
              { result := "✅ 查询成功执行，但没有返回数据。",
                ledger := List.replicate (i + 1) (repeat_record fp),
                executed := true } ::
              sql_db_query_run K M (q2 :: rest)
                (List.replicate (i + 1) (repeat_record fp)) := by
            rw [sql_db_query_run, hstep]
          refine ⟨?_, ?_, ?_⟩
          · rw [hrun]
            simp [ihlen]
          · intro o ho
            rw [hrun] at ho
            rw [show (q :: q2 :: rest).length - 1 = rest.length + 1 by simp,
              List.take_succ_cons] at ho
            rcases List.mem_cons.mp ho with ho | ho
            · rw [ho]
            · exact ihtake o (by simpa using ho)
          · intro o ho
            rw [hrun] at ho
            rw [show (q :: q2 :: rest).length - 1 = rest.length + 1 by simp,
              List.drop_succ_cons] at ho
            exact ihdrop o (by simpa using ho)

/-- Claim C4 (governor modelled from the spec, see `check_before_call`):
issuing the same tool `sql_db_query` with fingerprint-equivalent query
text `K + 1` times consecutively in one session makes the governor allow
the first `K` calls and veto the `(K+1)`-th with a nonempty reason
mentioning the repetition; the vetoed call's reason is returned as the
tool's ordinary string result (the embedding is a total function into
strings — there is no exception path), with nothing recorded for it.
`M` is the flood-guard ceiling; `K < M` keeps the flood guard out of
play in this scenario. -/
theorem c4_governor_loop_guard (K M : Nat) (fp : String) (qs : List String)
    (hKM : K < M) (hlen : qs.length = K + 1)
    (hq : ∀ q ∈ qs, query_fingerprint q = fp ∧ sql_safety_ok q) :
    (sql_db_query_run K M qs []).length = K + 1 ∧
    (∀ o ∈ (sql_db_query_run K M qs []).take K, o.executed = true) ∧
    (∀ o ∈ (sql_db_query_run K M qs []).drop K,
        o.executed = false ∧ strContains o.result "repeated" = true ∧
        o.result ≠ "" ∧ o.ledger.length = K) := by
  have haux := c4_aux K M fp hKM qs 0 hq (by simpa using hlen)
  rw [show List.replicate 0 (repeat_record fp) = [] from rfl, hlen] at haux
  obtain ⟨h1, h2, h3⟩ := haux
  refine ⟨by simpa [hlen] using h1, ?_, ?_⟩
  · intro o ho
    exact h2 o (by simpa using ho)
  · intro o ho
    obtain ⟨e1, e2, e3, e4⟩ := h3 o (by simpa using ho)
    exact ⟨e1, e2, e3, by rw [e4]; simp⟩

/-- Claim C4 witness: threshold 2, three fingerprint-equivalent queries
(differing in whitespace and case) yield allow, allow, reject. -/
theorem c4_governor_loop_guard_witness :
    (sql_db_query_run 2 100
        ["SELECT * FROM t", "select  *  from t", "SELECT * FROM T"] []).length
      = 2 + 1 ∧
    (∀ o ∈ (sql_db_query_run 2 100
        ["SELECT * FROM t", "select  *  from t", "SELECT * FROM T"] []).take 2,
      o.executed = true) ∧
    (∀ o ∈ (sql_db_query_run 2 100
        ["SELECT * FROM t", "select  *  from t", "SELECT * FROM T"] []).drop 2,
      o.executed = false ∧ strContains o.result "repeated" = true ∧
      o.result ≠ "" ∧ o.ledger.length = 2) :=
  c4_governor_loop_guard 2 100 "select * from t"
    ["SELECT * FROM t", "select  *  from t", "SELECT * FROM T"]
    (by decide) (by decide) (by decide)

end AixDB

namespace AixDB

/-- Channel-state bookkeeping of one write attempt. -/
theorem attempt_write_spec (chan : Nat → Bool) (st : WriteSt)
    (c mt dt : String) :
    (attempt_write chan st c mt dt).1.frames =
      st.frames ++ (if chan st.wclock then [create_response c mt dt] else []) ∧
    (attempt_write chan st c mt dt).1.wclock = st.wclock + 1 ∧
    (attempt_write chan st c mt dt).2 = chan st.wclock := by
  unfold attempt_write
  split <;> simp_all

/-- With a healthy channel and no cancellation, the tool-call loop always
reports success. -/
theorem print_tool_calls_ok :
    ∀ (tcs : List ToolCall) (w : WriteSt) (ans : List String),
      (print_tool_calls (fun _ => true) false tcs w ans).2.2 = true := by
  intro tcs
  induction tcs with
  | nil => intro w ans; rfl
  | cons tc rest ih =>
      intro w ans
      simp only [print_tool_calls, Bool.false_eq_true, if_false,
        Bool.and_false, attempt_write, if_true]
      cases format_tool_call tc.name tc.args with
      | none => exact ih _ _
      | some tool_msg => simp [ih]

/-- With a healthy channel and no cancellation, `_print_message` always
reports success. -/
theorem print_message_ok (m : Msg) (w : WriteSt) (ans : List String) :
    (print_message (fun _ => true) false m w ans).2.2 = true := by
  cases m with
  | human content =>
      simp only [print_message, Bool.false_eq_true, if_false]
      split
      · simp [attempt_write]
      · rfl
  | ai content tcs =>
      simp only [print_message, Bool.false_eq_true, if_false]
      split
      · simp [attempt_write, print_tool_calls_ok]
      · exact print_tool_calls_ok _ _ _
  | tool name content =>
      simp only [print_message, Bool.false_eq_true, if_false]
      cases format_tool_result name content with
      | none => rfl
      | some msg => simp [attempt_write]

/-- Frames produced by the tool-call loop extend the existing ones and
none of them is an `end` frame. -/
theorem print_tool_calls_frames (chan : Nat → Bool) (c : Bool) :
    ∀ (tcs : List ToolCall) (w : WriteSt) (ans : List String),
      ∃ extra, (print_tool_calls chan c tcs w ans).1.frames =
        w.frames ++ extra ∧ ∀ f ∈ extra, f.messageType ≠ "end" := by
  intro tcs
  induction tcs with
  | nil => intro w ans; exact ⟨[], by simp [print_tool_calls], by simp⟩
  | cons tc rest ih =>
      intro w ans
      by_cases hc : c
      · exact ⟨[], by simp [print_tool_calls, hc], by simp⟩
      · simp only [Bool.not_eq_true] at hc
        subst hc
        simp only [print_tool_calls, Bool.false_eq_true, if_false,
          Bool.and_false]
        cases format_tool_call tc.name tc.args with
        | none => exact ih _ _
        | some tool_msg =>
            by_cases hch : chan w.wclock
            · obtain ⟨extra, he, hn⟩ := ih
                { wclock := w.wclock + 1,
                  frames := w.frames ++ [create_response tool_msg "info" ANSWER_DT] }
                (ans ++ [tool_msg])
              refine ⟨create_response tool_msg "info" ANSWER_DT :: extra, ?_, ?_⟩
              · simp [attempt_write, hch, he]
              · intro f hf
                rcases List.mem_cons.mp hf with rfl | hf
                · simp [create_response]
                · exact hn f hf
            · simp only [Bool.not_eq_true] at hch
              exact ⟨[], by simp [attempt_write, hch], by simp⟩

/-- Frames produced by `_print_message` extend the existing ones and none
of them is an `end` frame. -/
theorem print_message_frames (chan : Nat → Bool) (c : Bool) (m : Msg)
    (w : WriteSt) (ans : List String) :
    ∃ extra, (print_message chan c m w ans).1.frames = w.frames ++ extra ∧
      ∀ f ∈ extra, f.messageType ≠ "end" := by
  by_cases hc : c
  · exact ⟨[], by simp [print_message, hc], by simp⟩
  · simp only [Bool.not_eq_true] at hc
    subst hc
    cases m with
    | human content =>
        simp only [print_message, Bool.false_eq_true, if_false]
        split
        · by_cases hch : chan w.wclock
          · exact ⟨[create_response (format_user_message content) "continue"
              ANSWER_DT], by simp [attempt_write, hch],
              by simp [create_response]⟩
          · simp only [Bool.not_eq_true] at hch
            exact ⟨[], by simp [attempt_write, hch], by simp⟩
        · exact ⟨[], by simp, by simp⟩
    | ai content tcs =>
        simp only [print_message, Bool.false_eq_true, if_false]
        split
        · by_cases hch : chan w.wclock
          · obtain ⟨extra, he, hn⟩ := print_tool_calls_frames chan false tcs
              { wclock := w.wclock + 1,
                frames := w.frames ++ [create_response
                  (format_agent_content (ai_content_text content)) "continue"
                  ANSWER_DT] }
              (ans ++ [format_agent_content (ai_content_text content)])
            refine ⟨create_response (format_agent_content
              (ai_content_text content)) "continue" ANSWER_DT :: extra, ?_, ?_⟩
            · simp [attempt_write, hch, he]
            · intro f hf
              rcases List.mem_cons.mp hf with rfl | hf
              · simp [create_response]
              · exact hn f hf
          · simp only [Bool.not_eq_true] at hch
            exact ⟨[], by simp [attempt_write, hch], by simp⟩
        · exact print_tool_calls_frames chan false tcs w ans
    | tool name content =>
        simp only [print_message, Bool.false_eq_true, if_false]
        cases format_tool_result name content with
        | none => exact ⟨[], by simp, by simp⟩
        | some msg =>
            by_cases hch : chan w.wclock
            · refine ⟨[create_response msg
                (if strContains (py_lower content) "error" then "error"
                  else "info") ANSWER_DT], by simp [attempt_write, hch], ?_⟩
              intro f hf
              rcases List.mem_cons.mp hf with rfl | hf
              · simp only [create_response]
                split <;> simp
              · simp at hf
            · simp only [Bool.not_eq_true] at hch
              exact ⟨[], by simp [attempt_write, hch], by simp⟩

end AixDB

namespace AixDB

/-- The per-message loop never changes the Delivery Cursor; only the
enclosing snapshot step advances it. -/
theorem process_batch_printed (chan cancelled : Nat → Bool) :
    ∀ (batch : List Msg) (idx : Nat) (st : LoopSt),
      (process_batch chan cancelled batch idx st).printed = st.printed := by
  intro batch
  induction batch with
  | nil => intro idx st; rfl
  | cons m rest ih =>
      intro idx st
      rw [process_batch]
      by_cases hflag : cancelled st.clock = true
      · simp [hflag]
      · simp only [Bool.not_eq_true] at hflag
        simp only [hflag, Bool.false_eq_true, if_false]
        rcases hp : print_message chan false m st.w st.answers
          with ⟨w1, ans1, okm⟩
        by_cases hok : okm = true
        · simp [hok, ih]
        · simp only [Bool.not_eq_true] at hok
          simp [hok]

/-- The messages handed to the renderer by the per-message loop are an
initial segment of the batch, enumerated from the cursor position. -/
theorem process_batch_rendered (chan cancelled : Nat → Bool) :
    ∀ (batch : List Msg) (idx : Nat) (st : LoopSt),
      ∃ k ≤ batch.length,
        (process_batch chan cancelled batch idx st).rendered =
          st.rendered ++ List.enumFrom idx (batch.take k) := by
  intro batch
  induction batch with
  | nil =>
      intro idx st
      exact ⟨0, by simp, by simp [process_batch]⟩
  | cons m rest ih =>
      intro idx st
      rw [process_batch]
      by_cases hflag : cancelled st.clock = true
      · exact ⟨0, by simp, by simp [hflag]⟩
      · simp only [Bool.not_eq_true] at hflag
        simp only [hflag, Bool.false_eq_true, if_false]
        rcases hp : print_message chan false m st.w st.answers
          with ⟨w1, ans1, okm⟩
        by_cases hok : okm = true
        · obtain ⟨k, hk, hr⟩ := ih (idx + 1)
            { printed := st.printed, clock := st.clock + 1, w := w1,
              answers := ans1, rendered := st.rendered ++ [(idx, m)],
              closed := st.closed, exited := st.exited }
          refine ⟨k + 1, by simpa using Nat.succ_le_succ hk, ?_⟩
          simp only [hok, Bool.not_true, Bool.false_eq_true, if_false]
          rw [hr]
          simp [List.take_succ_cons, List.enumFrom_cons]
        · simp only [Bool.not_eq_true] at hok
          refine ⟨1, by simp, ?_⟩
          simp [hok, List.enumFrom_cons]

end AixDB

namespace AixDB

/-- The Delivery Cursor never decreases across one snapshot iteration. -/
theorem process_chunk_printed_mono (chan cancelled : Nat → Bool)
    (st : LoopSt) (ms : List Msg) :
    st.printed ≤ (process_chunk chan cancelled st ms).printed := by
  rw [process_chunk]
  by_cases hskip : (st.exited || st.closed) = true
  · simp [hskip]
  · simp only [hskip, Bool.false_eq_true, if_false]
    by_cases hflag : cancelled st.clock = true
    · simp [hflag]
    · simp only [Bool.not_eq_true] at hflag
      simp only [hflag, Bool.false_eq_true, if_false]
      by_cases hlt : st.printed < ms.length
      · simp only [hlt, if_true]
        split
        · rw [process_batch_printed]
        · simp
          omega
      · simp [hlt]

/-- Indices strictly increase along an enumeration. -/
theorem pairwise_enumFrom_lt {α : Type} :
    ∀ (l : List α) (n : Nat),
      List.Pairwise (fun a b => a.1 < b.1) (List.enumFrom n l) := by
  intro l
  induction l with
  | nil => intro n; simp
  | cons x xs ih =>
      intro n
      rw [List.enumFrom_cons]
      refine List.Pairwise.cons ?_ (ih (n + 1))
      intro b hb
      have := (List.mem_enumFrom hb).1
      simpa using Nat.lt_of_succ_le this

/-- An element present at index `i` of a prefix is present at the same
index in any extension. -/
theorem getElem?_of_prefix {α : Type} {l₁ l₂ : List α} (h : l₁ <+: l₂)
    {i : Nat} {a : α} (ha : l₁[i]? = some a) : l₂[i]? = some a := by
  obtain ⟨t, rfl⟩ := h
  have hi : i < l₁.length := by
    by_contra hni
    rw [List.getElem?_eq_none (by omega)] at ha
    exact Option.noConfusion ha
  rw [List.getElem?_append_left hi]
  exact ha

/-- Invariant preservation across one snapshot iteration: rendered
indices stay strictly increasing, stay below the cursor while the loop is
live, and stay correct with respect to the current snapshot. -/
theorem process_chunk_inv (chan cancelled : Nat → Bool) (st : LoopSt)
    (ms : List Msg)
    (hpair : List.Pairwise (fun a b => a.1 < b.1) st.rendered)
    (hbound : st.exited = false → ∀ p ∈ st.rendered, p.1 < st.printed)
    (hid : ∀ p ∈ st.rendered, ms[p.1]? = some p.2) :
    List.Pairwise (fun a b => a.1 < b.1)
      (process_chunk chan cancelled st ms).rendered ∧
    ((process_chunk chan cancelled st ms).exited = false →
      ∀ p ∈ (process_chunk chan cancelled st ms).rendered,
        p.1 < (process_chunk chan cancelled st ms).printed) ∧
    (∀ p ∈ (process_chunk chan cancelled st ms).rendered,
      ms[p.1]? = some p.2) := by
  rw [process_chunk]
  by_cases hskip : (st.exited || st.closed) = true
  · rw [if_pos hskip]
    exact ⟨hpair, hbound, hid⟩
  · rw [if_neg hskip]
    have hexited : st.exited = false := by
      rcases Bool.or_eq_false_iff.mp (Bool.not_eq_true _ ▸ hskip) with ⟨h1, _⟩
      exact h1
    by_cases hflag : cancelled st.clock = true
    · rw [if_pos hflag]
      exact ⟨hpair, fun hx => absurd hx (by simp), hid⟩
    · simp only [Bool.not_eq_true] at hflag
      rw [if_neg (by rw [hflag]; exact Bool.false_ne_true)]
      by_cases hlt : st.printed < ms.length
      · rw [if_pos hlt]
        obtain ⟨k, hk, hr⟩ := process_batch_rendered chan cancelled
          (ms.drop st.printed) st.printed { st with clock := st.clock + 1 }
        have hr : (process_batch chan cancelled (ms.drop st.printed)
            st.printed { st with clock := st.clock + 1 }).rendered =
            st.rendered ++ List.enumFrom st.printed
              ((ms.drop st.printed).take k) := hr
        have hnew : ∀ p ∈ List.enumFrom st.printed
            ((ms.drop st.printed).take k),
            st.printed ≤ p.1 ∧ p.1 < ms.length ∧ ms[p.1]? = some p.2 := by
          intro p hp
          obtain ⟨h1, h2, h3⟩ := List.mem_enumFrom hp
          have hxs : ((ms.drop st.printed).take k).length ≤
              ms.length - st.printed := by
            calc ((ms.drop st.printed).take k).length
                ≤ (ms.drop st.printed).length := by
                  simp
              _ = ms.length - st.printed := by simp
          have hplt : p.1 < ms.length := by omega
          refine ⟨h1, hplt, ?_⟩
          have hlt2 : p.1 - st.printed <
              ((ms.drop st.printed).take k).length := by omega
          have hq : ((ms.drop st.printed).take k)[p.1 - st.printed]?
              = some p.2 := by
            rw [List.getElem?_eq_getElem hlt2]
            exact congrArg some h3.symm
          have hklt : p.1 - st.printed < k := by
            have := List.length_take_le k (ms.drop st.printed)
            omega
          rw [List.getElem?_take, if_pos hklt, List.getElem?_drop] at hq
          rwa [show st.printed + (p.1 - st.printed) = p.1 from by omega] at hq
        have hpair2 : List.Pairwise (fun a b => a.1 < b.1)
            (st.rendered ++ List.enumFrom st.printed
              ((ms.drop st.printed).take k)) := by
          rw [List.pairwise_append]
          refine ⟨hpair, pairwise_enumFrom_lt _ _, ?_⟩
          intro a ha b hb
          have hb1 := (hnew b hb).1
          have ha1 := hbound hexited a ha
          omega
        have hid2 : ∀ p ∈ st.rendered ++ List.enumFrom st.printed
            ((ms.drop st.printed).take k), ms[p.1]? = some p.2 := by
          intro p hp
          rcases List.mem_append.mp hp with hp | hp
          · exact hid p hp
          · exact (hnew p hp).2.2
        by_cases hex : (process_batch chan cancelled (ms.drop st.printed)
            st.printed { st with clock := st.clock + 1 }).exited = true
        · rw [if_pos hex]
          refine ⟨by rw [hr]; exact hpair2, ?_, by rw [hr]; exact hid2⟩
          intro hx
          rw [hex] at hx
          exact absurd hx (by simp)
        · rw [if_neg hex]
          refine ⟨by rw [hr]; exact hpair2, ?_, by rw [hr]; exact hid2⟩
          intro _ p hp
          have hp2 : p ∈ st.rendered ++ List.enumFrom st.printed
              ((ms.drop st.printed).take k) := by
            rw [← hr]; exact hp
          show p.1 < ms.length
          rcases List.mem_append.mp hp2 with hp2 | hp2
          · have := hbound hexited p hp2
            omega
          · exact (hnew p hp2).2.1
      · rw [if_neg hlt]
        exact ⟨hpair, fun _ => hbound hexited, hid⟩

end AixDB

namespace AixDB

/-- Master invariant of the snapshot loop under a prefix-extension chain
of snapshots: rendered indices are strictly increasing and each rendered
pair matches the last snapshot at its index. -/
theorem stream_loop_inv (chan cancelled : Nat → Bool) :
    ∀ (snaps : List (List Msg)) (cur : List Msg) (st : LoopSt),
      List.Chain' (fun a b => a <+: b) (cur :: snaps) →
      List.Pairwise (fun a b => a.1 < b.1) st.rendered →
      (st.exited = false → ∀ p ∈ st.rendered, p.1 < st.printed) →
      (∀ p ∈ st.rendered, cur[p.1]? = some p.2) →
      List.Pairwise (fun a b => a.1 < b.1)
        (stream_loop chan cancelled snaps st).rendered ∧
      ((stream_loop chan cancelled snaps st).exited = false →
        ∀ p ∈ (stream_loop chan cancelled snaps st).rendered,
          p.1 < (stream_loop chan cancelled snaps st).printed) ∧
      (∀ p ∈ (stream_loop chan cancelled snaps st).rendered,
        ((cur :: snaps).getLast (by simp))[p.1]? = some p.2) := by
  intro snaps
  induction snaps with
  | nil =>
      intro cur st _ hpair hbound hid
      exact ⟨hpair, hbound, hid⟩
  | cons ms rest ih =>
      intro cur st hchain hpair hbound hid
      have hpre : cur <+: ms := List.chain'_cons.mp hchain |>.1
      have hchain2 : List.Chain' (fun a b => a <+: b) (ms :: rest) :=
        List.chain'_cons.mp hchain |>.2
      have hid2 : ∀ p ∈ st.rendered, ms[p.1]? = some p.2 :=
        fun p hp => getElem?_of_prefix hpre (hid p hp)
      obtain ⟨s1, s2, s3⟩ := process_chunk_inv chan cancelled st ms
        hpair hbound hid2
      have hstep := ih ms (process_chunk chan cancelled st ms) hchain2 s1 s2 s3
      have hloop : stream_loop chan cancelled (ms :: rest) st =
          stream_loop chan cancelled rest (process_chunk chan cancelled st ms) :=
        rfl
      rw [hloop]
      refine ⟨hstep.1, hstep.2.1, ?_⟩
      intro p hp
      have := hstep.2.2 p hp
      rwa [show ((cur :: ms :: rest).getLast (by simp)) =
        ((ms :: rest).getLast (by simp)) from List.getLast_cons _] at *

end AixDB

namespace AixDB

/-- The Delivery Cursor is non-decreasing from each snapshot iteration to
the next. -/
theorem stream_loop_printed_take (chan cancelled : Nat → Bool)
    (snaps : List (List Msg)) (st : LoopSt) (n : Nat) :
    (stream_loop chan cancelled (snaps.take n) st).printed ≤
      (stream_loop chan cancelled (snaps.take (n + 1)) st).printed := by
  rw [List.take_succ, stream_loop, stream_loop, List.foldl_append]
  cases h : snaps[n]? with
  | none => simp
  | some ms =>
      simp only [Option.toList_some, List.foldl_cons, List.foldl_nil]
      exact process_chunk_printed_mono chan cancelled _ ms

/-- Claim C2: under prefix-extension snapshots, the Delivery Cursor is
monotonically non-decreasing across iterations, the rendered messages
carry strictly increasing transcript indices (so no message is rendered
twice, and rendering happens in transcript order), and every rendered
pair is the message at its index of the final transcript. -/
theorem c2_cursor_monotonicity (chan cancelled : Nat → Bool)
    (snapshots : List (List Msg))
    (hchain : List.Chain' (fun a b => a <+: b) snapshots) :
    (∀ n, (stream_loop chan cancelled (snapshots.take n) initLoopSt).printed ≤
        (stream_loop chan cancelled (snapshots.take (n + 1)) initLoopSt).printed) ∧
    List.Pairwise (fun a b => a.1 < b.1)
      (stream_loop chan cancelled snapshots initLoopSt).rendered ∧
    ((stream_loop chan cancelled snapshots initLoopSt).rendered.map
      Prod.fst).Nodup ∧
    (∀ last, snapshots.getLast? = some last →
      ∀ p ∈ (stream_loop chan cancelled snapshots initLoopSt).rendered,
        last[p.1]? = some p.2) := by
  have hmono := fun n =>
    stream_loop_printed_take chan cancelled snapshots initLoopSt n
  have hnodup : ∀ (l : List (Nat × Msg)),
      List.Pairwise (fun a b => a.1 < b.1) l → (l.map Prod.fst).Nodup := by
    intro l hl
    exact hl.map Prod.fst (fun a b h => Nat.ne_of_lt h)
  cases snapshots with
  | nil =>
      refine ⟨hmono, by simp [stream_loop, initLoopSt], ?_, ?_⟩
      · simp [stream_loop, initLoopSt]
      · intro last hlast
        simp at hlast
  | cons c rest =>
      obtain ⟨s1, s2, s3⟩ := process_chunk_inv chan cancelled initLoopSt c
        (by simp [initLoopSt]) (by simp [initLoopSt]) (by simp [initLoopSt])
      obtain ⟨h1, h2, h3⟩ := stream_loop_inv chan cancelled rest c
        (process_chunk chan cancelled initLoopSt c) hchain s1 s2 s3
      have hloop : stream_loop chan cancelled (c :: rest) initLoopSt =
          stream_loop chan cancelled rest
            (process_chunk chan cancelled initLoopSt c) := rfl
      rw [hloop]
      refine ⟨hmono, h1, hnodup _ h1, ?_⟩
      intro last hlast p hp
      have hlast2 : last = (c :: rest).getLast (by simp) := by
        rw [List.getLast?_eq_getLast (c :: rest) (by simp)] at hlast
        exact (Option.some.injEq _ _ ▸ hlast).symm
      rw [hlast2]
      exact h3 p hp

/-- Claim C2 witness: a concrete prefix-extension chain of snapshots. -/
theorem c2_cursor_monotonicity_witness :
    (∀ n, (stream_loop (fun _ => true) (fun _ => false)
        ([[Msg.human "q"], [Msg.human "q", Msg.ai (.str "a") []]].take n)
        initLoopSt).printed ≤
      (stream_loop (fun _ => true) (fun _ => false)
        ([[Msg.human "q"], [Msg.human "q", Msg.ai (.str "a") []]].take (n + 1))
        initLoopSt).printed) ∧
    List.Pairwise (fun a b => a.1 < b.1)
      (stream_loop (fun _ => true) (fun _ => false)
        [[Msg.human "q"], [Msg.human "q", Msg.ai (.str "a") []]]
        initLoopSt).rendered ∧
    ((stream_loop (fun _ => true) (fun _ => false)
        [[Msg.human "q"], [Msg.human "q", Msg.ai (.str "a") []]]
        initLoopSt).rendered.map Prod.fst).Nodup ∧
    (∀ last, ([[Msg.human "q"],
        [Msg.human "q", Msg.ai (.str "a") []]] : List (List Msg)).getLast?
        = some last →
      ∀ p ∈ (stream_loop (fun _ => true) (fun _ => false)
          [[Msg.human "q"], [Msg.human "q", Msg.ai (.str "a") []]]
          initLoopSt).rendered,
        last[p.1]? = some p.2) :=
  c2_cursor_monotonicity (fun _ => true) (fun _ => false)
    [[Msg.human "q"], [Msg.human "q", Msg.ai (.str "a") []]]
    (List.chain'_cons.mpr ⟨⟨[Msg.ai (.str "a") []], rfl⟩,
      List.chain'_singleton _⟩)

end AixDB

namespace AixDB

/-- Frames of the cancellation handler over a healthy channel: the notice
(type "info") followed by the terminal frame (type "end"). -/
theorem handle_task_cancellation_frames (w : WriteSt) (b : Bool) :
    (handle_task_cancellation (fun _ => true) w b).frames =
      w.frames ++ [create_response
          (if b then "\n> ⚠️ 任务已被用户取消" else "\n> ⚠️ 连接已断开，任务已中断")
          "info" ANSWER_DT,
        create_response "" "end" STREAM_END_DT] := by
  cases b <;> simp [handle_task_cancellation, attempt_write]

/-- Cancellation observed at the poll before the `(kk+1)`-th message of a
batch: the first `kk` messages are rendered exactly as the uncancelled
renderer would render them, the cancellation notice and terminal frames
are appended, the loop takes the early `return`, and nothing at or past
the `(kk+1)`-th message is rendered. -/
theorem process_batch_cancel_at :
    ∀ (kk : Nat) (batch : List Msg) (idx : Nat) (st : LoopSt)
      (cancelled : Nat → Bool),
      kk + 1 ≤ batch.length →
      (∀ j, j < kk → cancelled (st.clock + j) = false) →
      cancelled (st.clock + kk) = true →
      process_batch (fun _ => true) cancelled batch idx st =
        { printed := st.printed, clock := st.clock + (kk + 1),
          w := handle_task_cancellation (fun _ => true)
            (render_batch (fun _ => true) (batch.take kk) st.w st.answers).1
            true,
          answers := (render_batch (fun _ => true) (batch.take kk) st.w
            st.answers).2,
          rendered := st.rendered ++ List.enumFrom idx (batch.take kk),
          closed := st.closed, exited := true } := by
  intro kk
  induction kk with
  | zero =>
      intro batch idx st cancelled hlen _ hcanc
      cases batch with
      | nil => simp at hlen
      | cons m rest =>
          rw [process_batch]
          rw [if_pos (by simpa using hcanc)]
          simp [render_batch]
  | succ kk ih =>
      intro batch idx st cancelled hlen hfalse hcanc
      cases batch with
      | nil => simp at hlen
      | cons m rest =>
          rw [process_batch]
          have hflag : cancelled st.clock = false := by
            simpa using hfalse 0 (by omega)
          rw [if_neg (by rw [hflag]; exact Bool.false_ne_true)]
          have hok : (print_message (fun _ => true) false m st.w
              st.answers).2.2 = true := print_message_ok m st.w st.answers
          rw [hflag]
          rcases hp : print_message (fun _ => true) false m st.w st.answers
            with ⟨w1, ans1, okm⟩
          have hokm : okm = true := by rw [hp] at hok; exact hok
          subst hokm
          simp only [Bool.not_true, Bool.false_eq_true, if_false]
          have hih := ih rest (idx + 1)
            { printed := st.printed, clock := st.clock + 1, w := w1,
              answers := ans1, rendered := st.rendered ++ [(idx, m)],
              closed := st.closed, exited := st.exited } cancelled
            (by simpa using hlen)
            (by intro j hj
                have h := hfalse (j + 1) (by omega)
                rw [show st.clock + 1 + j = st.clock + (j + 1) from by omega]
                exact h)
            (by rw [show st.clock + 1 + kk = st.clock + (kk + 1) from by omega]
                exact hcanc)
          rw [hih]
          have hrb : render_batch (fun _ => true) (m :: rest.take kk)
              st.w st.answers = render_batch (fun _ => true) (rest.take kk)
              w1 ans1 := by
            simp only [render_batch, hp]
          simp only [LoopSt.mk.injEq, hrb, List.take_succ_cons,
            List.enumFrom_cons, List.append_assoc, List.singleton_append]
          and_intros <;> first | trivial | omega

end AixDB

namespace AixDB

/-- Claim C3: if the cancellation flag becomes true before message `k`
(1 ≤ k ≤ N) of a snapshot's batch of N new messages is processed, then
exactly messages 1..k-1 of the batch are rendered (exactly as the
uncancelled renderer would render them), a cancellation notice frame and
a terminal end frame are emitted, the loop takes its early return, and no
message with batch index ≥ k is rendered.  The flag is polled once at the
top of the snapshot iteration (poll index `st.clock`) and once before
each message (poll indices `st.clock + 1, ...`); "becomes true before
message k" is the schedule that turns true at the poll preceding message
`k`. -/
theorem c3_cancellation_granularity (st : LoopSt) (ms : List Msg) (k : Nat)
    (cancelled : Nat → Bool)
    (hex : st.exited = false) (hcl : st.closed = false)
    (hk1 : 1 ≤ k) (hkN : k ≤ (ms.drop st.printed).length)
    (hc : cancelled = fun t => decide (st.clock + k ≤ t)) :
    process_chunk (fun _ => true) cancelled st ms =
      { printed := st.printed, clock := st.clock + 1 + k,
        w := handle_task_cancellation (fun _ => true)
          (render_batch (fun _ => true) ((ms.drop st.printed).take (k - 1))
            st.w st.answers).1 true,
        answers := (render_batch (fun _ => true)
          ((ms.drop st.printed).take (k - 1)) st.w st.answers).2,
        rendered := st.rendered ++ List.enumFrom st.printed
          ((ms.drop st.printed).take (k - 1)),
        closed := st.closed, exited := true } ∧
    (process_chunk (fun _ => true) cancelled st ms).w.frames =
      (render_batch (fun _ => true) ((ms.drop st.printed).take (k - 1))
        st.w st.answers).1.frames ++
      [create_response "\n> ⚠️ 任务已被用户取消" "info" ANSWER_DT,
       create_response "" "end" STREAM_END_DT] ∧
    (process_chunk (fun _ => true) cancelled st ms).exited = true ∧
    (∀ p ∈ (process_chunk (fun _ => true) cancelled st ms).rendered,
      p ∈ st.rendered ∨
        (st.printed ≤ p.1 ∧ p.1 < st.printed + (k - 1))) := by
  subst hc
  have hlt : st.printed < ms.length := by
    have := List.length_drop st.printed ms ▸ hkN
    omega
  have hmain : process_chunk (fun _ => true)
      (fun t => decide (st.clock + k ≤ t)) st ms =
      { printed := st.printed, clock := st.clock + 1 + k,
        w := handle_task_cancellation (fun _ => true)
          (render_batch (fun _ => true) ((ms.drop st.printed).take (k - 1))
            st.w st.answers).1 true,
        answers := (render_batch (fun _ => true)
          ((ms.drop st.printed).take (k - 1)) st.w st.answers).2,
        rendered := st.rendered ++ List.enumFrom st.printed
          ((ms.drop st.printed).take (k - 1)),
        closed := st.closed, exited := true } := by
    rw [process_chunk]
    rw [if_neg (by rw [hex, hcl]; simp)]
    rw [if_neg (by simp; omega)]
    rw [if_pos (by exact hlt)]
    have hbatch := process_batch_cancel_at (k - 1) (ms.drop st.printed)
      st.printed { st with clock := st.clock + 1 }
      (fun t => decide (st.clock + k ≤ t))
      (by omega)
      (by intro j hj
          show decide (st.clock + k ≤ st.clock + 1 + j) = false
          simp
          omega)
      (by show decide (st.clock + k ≤ st.clock + 1 + (k - 1)) = true
          simp
          omega)
    rw [hbatch]
    rw [if_pos rfl]
    simp only [LoopSt.mk.injEq]
    and_intros <;> first | trivial | omega
  refine ⟨hmain, ?_, ?_, ?_⟩
  · rw [hmain, handle_task_cancellation_frames]
    simp
  · rw [hmain]
  · intro p hp
    rw [hmain] at hp
    rcases List.mem_append.mp hp with hp | hp
    · exact Or.inl hp
    · obtain ⟨h1, h2, _⟩ := List.mem_enumFrom hp
      refine Or.inr ⟨h1, ?_⟩
      have : ((ms.drop st.printed).take (k - 1)).length ≤ k - 1 := by
        simp
      omega

/-- Claim C3 witness: a three-message batch with the flag set before the
second message: exactly the first message is rendered and the notice/end
pair closes the stream. -/
theorem c3_cancellation_granularity_witness :
    process_chunk (fun _ => true)
      (fun t => decide (initLoopSt.clock + 2 ≤ t)) initLoopSt
      [Msg.human "q", Msg.ai (.str "a") [], Msg.ai (.str "b") []] =
      { printed := initLoopSt.printed, clock := initLoopSt.clock + 1 + 2,
        w := handle_task_cancellation (fun _ => true)
          (render_batch (fun _ => true)
            (([Msg.human "q", Msg.ai (.str "a") [],
              Msg.ai (.str "b") []].drop initLoopSt.printed).take (2 - 1))
            initLoopSt.w initLoopSt.answers).1 true,
        answers := (render_batch (fun _ => true)
          (([Msg.human "q", Msg.ai (.str "a") [],
            Msg.ai (.str "b") []].drop initLoopSt.printed).take (2 - 1))
          initLoopSt.w initLoopSt.answers).2,
        rendered := initLoopSt.rendered ++ List.enumFrom initLoopSt.printed
          (([Msg.human "q", Msg.ai (.str "a") [],
            Msg.ai (.str "b") []].drop initLoopSt.printed).take (2 - 1)),
        closed := initLoopSt.closed, exited := true } ∧
    (process_chunk (fun _ => true)
      (fun t => decide (initLoopSt.clock + 2 ≤ t)) initLoopSt
      [Msg.human "q", Msg.ai (.str "a") [], Msg.ai (.str "b") []]).w.frames =
      (render_batch (fun _ => true)
        (([Msg.human "q", Msg.ai (.str "a") [],
          Msg.ai (.str "b") []].drop initLoopSt.printed).take (2 - 1))
        initLoopSt.w initLoopSt.answers).1.frames ++
      [create_response "\n> ⚠️ 任务已被用户取消" "info" ANSWER_DT,
       create_response "" "end" STREAM_END_DT] ∧
    (process_chunk (fun _ => true)
      (fun t => decide (initLoopSt.clock + 2 ≤ t)) initLoopSt
      [Msg.human "q", Msg.ai (.str "a") [], Msg.ai (.str "b") []]).exited
      = true ∧
    (∀ p ∈ (process_chunk (fun _ => true)
        (fun t => decide (initLoopSt.clock + 2 ≤ t)) initLoopSt
        [Msg.human "q", Msg.ai (.str "a") [],
          Msg.ai (.str "b") []]).rendered,
      p ∈ initLoopSt.rendered ∨
        (initLoopSt.printed ≤ p.1 ∧
          p.1 < initLoopSt.printed + (2 - 1))) :=
  c3_cancellation_granularity initLoopSt
    [Msg.human "q", Msg.ai (.str "a") [], Msg.ai (.str "b") []] 2
    (fun t => decide (initLoopSt.clock + 2 ≤ t))
    rfl rfl (by decide) (by decide) rfl

end AixDB

namespace AixDB

/-- One write against a channel that accepts only the first `w` writes:
frames stay counted by the write clock and bounded by `w`, and a
successful write keeps the clock within `w`. -/
theorem attempt_write_w (w : Nat) (st : WriteSt) (c mt dt : String)
    (hcl : st.wclock ≤ w) (hf : st.frames.length ≤ st.wclock) :
    (attempt_write (fun i => decide (i < w)) st c mt dt).1.frames.length ≤
      (attempt_write (fun i => decide (i < w)) st c mt dt).1.wclock ∧
    (attempt_write (fun i => decide (i < w)) st c mt dt).1.frames.length ≤ w ∧
    ((attempt_write (fun i => decide (i < w)) st c mt dt).2 = true →
      (attempt_write (fun i => decide (i < w)) st c mt dt).1.wclock ≤ w) := by
  unfold attempt_write
  by_cases h : st.wclock < w
  · simp [h]
    omega
  · simp [h]
    omega

/-- Tool-call loop bound against the truncating channel. -/
theorem print_tool_calls_w (w : Nat) :
    ∀ (tcs : List ToolCall) (wst : WriteSt) (ans : List String),
      wst.wclock ≤ w → wst.frames.length ≤ wst.wclock →
      (print_tool_calls (fun i => decide (i < w)) false tcs wst
        ans).1.frames.length ≤
        (print_tool_calls (fun i => decide (i < w)) false tcs wst
          ans).1.wclock ∧
      (print_tool_calls (fun i => decide (i < w)) false tcs wst
        ans).1.frames.length ≤ w ∧
      ((print_tool_calls (fun i => decide (i < w)) false tcs wst ans).2.2
          = true →
        (print_tool_calls (fun i => decide (i < w)) false tcs wst
          ans).1.wclock ≤ w) := by
  intro tcs
  induction tcs with
  | nil =>
      intro wst ans hcl hf
      exact ⟨hf, hf.trans hcl, fun _ => hcl⟩
  | cons tc rest ih =>
      intro wst ans hcl hf
      simp only [print_tool_calls, Bool.false_eq_true, if_false,
        Bool.and_false]
      cases format_tool_call tc.name tc.args with
      | none => exact ih wst ans hcl hf
      | some tool_msg =>
          simp only [attempt_write, decide_eq_true_eq]
          by_cases h : wst.wclock < w
          · rw [if_pos h]
            simp only [Bool.not_true, Bool.false_eq_true, if_false]
            have hcl2 : wst.wclock + 1 ≤ w := h
            have hf2 : (wst.frames ++ [create_response tool_msg "info"
                ANSWER_DT]).length ≤ wst.wclock + 1 := by
              simp only [List.length_append, List.length_singleton]
              omega
            exact ih _ _ hcl2 hf2
          · rw [if_neg h]
            simp only [Bool.not_false, if_true]
            exact ⟨hf.trans (Nat.le_succ _), hf.trans hcl,
              fun hx => by simp at hx⟩

end AixDB

namespace AixDB

/-- Rendering one message against the truncating channel: delivered
frames stay counted by the write clock and bounded by `w`, and a
successful rendering keeps the clock within `w`. -/
theorem print_message_w (w : Nat) (m : Msg) (wst : WriteSt)
    (ans : List String) (hcl : wst.wclock ≤ w)
    (hf : wst.frames.length ≤ wst.wclock) :
    (print_message (fun i => decide (i < w)) false m wst
      ans).1.frames.length ≤
      (print_message (fun i => decide (i < w)) false m wst ans).1.wclock ∧
    (print_message (fun i => decide (i < w)) false m wst
      ans).1.frames.length ≤ w ∧
    ((print_message (fun i => decide (i < w)) false m wst ans).2.2 = true →
      (print_message (fun i => decide (i < w)) false m wst ans).1.wclock
        ≤ w) := by
  cases m with
  | human content =>
      simp only [print_message, Bool.false_eq_true, if_false]
      split
      · simp only [attempt_write, decide_eq_true_eq]
        by_cases h : wst.wclock < w
        · rw [if_pos h]
          refine ⟨?_, ?_, fun _ => h⟩
          · simp only [List.length_append, List.length_singleton]; omega
          · simp only [List.length_append, List.length_singleton]; omega
        · rw [if_neg h]
          exact ⟨hf.trans (Nat.le_succ _), hf.trans hcl,
            fun hx => by simp at hx⟩
      · exact ⟨hf, hf.trans hcl, fun _ => hcl⟩
  | ai content tcs =>
      simp only [print_message, Bool.false_eq_true, if_false]
      split
      · simp only [attempt_write, decide_eq_true_eq]
        by_cases h : wst.wclock < w
        · rw [if_pos h]
          simp only [Bool.not_true, Bool.false_eq_true, if_false]
          have hcl2 : wst.wclock + 1 ≤ w := h
          have hf2 : (wst.frames ++ [create_response
              (format_agent_content (ai_content_text content)) "continue"
              ANSWER_DT]).length ≤ wst.wclock + 1 := by
            simp only [List.length_append, List.length_singleton]; omega
          exact print_tool_calls_w w tcs _ _ hcl2 hf2
        · rw [if_neg h]
          simp only [Bool.not_false, if_true]
          exact ⟨hf.trans (Nat.le_succ _), hf.trans hcl,
            fun hx => by simp at hx⟩
      · exact print_tool_calls_w w tcs wst ans hcl hf
  | tool name content =>
      simp only [print_message, Bool.false_eq_true, if_false]
      cases format_tool_result name content with
      | none => exact ⟨hf, hf.trans hcl, fun _ => hcl⟩
      | some msg =>
          simp only [attempt_write, decide_eq_true_eq]
          by_cases h : wst.wclock < w
          · rw [if_pos h]
            simp only [Bool.not_true, Bool.false_eq_true, if_false]
            refine ⟨?_, ?_, fun _ => h⟩
            · simp only [List.length_append, List.length_singleton]; omega
            · simp only [List.length_append, List.length_singleton]; omega
          · rw [if_neg h]
            simp only [Bool.not_false, if_true]
            exact ⟨hf.trans (Nat.le_succ _), hf.trans hcl,
              fun hx => by simp at hx⟩

end AixDB

namespace AixDB

/-- Per-message loop against the truncating channel (no cancellation):
frame bounds are preserved and the early-return flag is untouched. -/
theorem process_batch_w (w : Nat) :
    ∀ (batch : List Msg) (idx : Nat) (st : LoopSt),
      st.closed = false → st.w.wclock ≤ w →
      st.w.frames.length ≤ st.w.wclock →
      (process_batch (fun i => decide (i < w)) (fun _ => false) batch idx
        st).w.frames.length ≤
        (process_batch (fun i => decide (i < w)) (fun _ => false) batch idx
          st).w.wclock ∧
      (process_batch (fun i => decide (i < w)) (fun _ => false) batch idx
        st).w.frames.length ≤ w ∧
      ((process_batch (fun i => decide (i < w)) (fun _ => false) batch idx
          st).closed = false →
        (process_batch (fun i => decide (i < w)) (fun _ => false) batch idx
          st).w.wclock ≤ w) ∧
      (process_batch (fun i => decide (i < w)) (fun _ => false) batch idx
        st).exited = st.exited := by
  intro batch
  induction batch with
  | nil =>
      intro idx st hclosed hcl hf
      exact ⟨hf, hf.trans hcl, fun _ => hcl, rfl⟩
  | cons m rest ih =>
      intro idx st hclosed hcl hf
      rw [process_batch]
      rw [if_neg Bool.false_ne_true]
      obtain ⟨p1, p2, p3⟩ := print_message_w w m st.w st.answers hcl hf
      rcases hp : print_message (fun i => decide (i < w)) false m st.w
        st.answers with ⟨w1, ans1, okm⟩
      rw [hp] at p1 p2 p3
      by_cases hok : okm = true
      · simp only [hok, Bool.not_true, Bool.false_eq_true, if_false]
        exact ih (idx + 1) _ hclosed (p3 hok) p1
      · simp only [Bool.not_eq_true] at hok
        subst hok
        simp only [Bool.not_false, if_true]
        refine ⟨p1, p2, fun hx => by simp at hx, ?_⟩
        trivial

/-- One snapshot iteration against the truncating channel. -/
theorem process_chunk_w (w : Nat) (st : LoopSt) (ms : List Msg)
    (h1 : st.w.frames.length ≤ st.w.wclock)
    (h2 : st.w.frames.length ≤ w)
    (h3 : st.closed = false → st.exited = false → st.w.wclock ≤ w)
    (hex : st.exited = false) :
    (process_chunk (fun i => decide (i < w)) (fun _ => false) st
      ms).w.frames.length ≤
      (process_chunk (fun i => decide (i < w)) (fun _ => false) st
        ms).w.wclock ∧
    (process_chunk (fun i => decide (i < w)) (fun _ => false) st
      ms).w.frames.length ≤ w ∧
    ((process_chunk (fun i => decide (i < w)) (fun _ => false) st ms).closed
        = false →
      (process_chunk (fun i => decide (i < w)) (fun _ => false) st
        ms).w.wclock ≤ w) ∧
    (process_chunk (fun i => decide (i < w)) (fun _ => false) st ms).exited
      = false := by
  rw [process_chunk]
  by_cases hskip : (st.exited || st.closed) = true
  · rw [if_pos hskip]
    refine ⟨h1, h2, ?_, hex⟩
    intro hcf
    exact h3 hcf hex
  · rw [if_neg hskip]
    have hclosed : st.closed = false := by
      rcases Bool.or_eq_false_iff.mp (Bool.not_eq_true _ ▸ hskip) with ⟨_, h⟩
      exact h
    rw [if_neg Bool.false_ne_true]
    by_cases hlt : st.printed < ms.length
    · rw [if_pos hlt]
      obtain ⟨b1, b2, b3, b4⟩ := process_batch_w w (ms.drop st.printed)
        st.printed { st with clock := st.clock + 1 } hclosed
        (h3 hclosed hex) h1
      have hbex : (process_batch (fun i => decide (i < w)) (fun _ => false)
          (ms.drop st.printed) st.printed
          { st with clock := st.clock + 1 }).exited = false := by
        rw [b4]; exact hex
      rw [if_neg (by rw [hbex]; exact Bool.false_ne_true)]
      exact ⟨b1, b2, b3, hbex⟩
    · rw [if_neg hlt]
      refine ⟨h1, h2, fun _ => h3 hclosed hex, hex⟩

/-- The whole snapshot loop against the truncating channel. -/
theorem stream_loop_w (w : Nat) :
    ∀ (snaps : List (List Msg)) (st : LoopSt),
      st.w.frames.length ≤ st.w.wclock →
      st.w.frames.length ≤ w →
      (st.closed = false → st.exited = false → st.w.wclock ≤ w) →
      st.exited = false →
      (stream_loop (fun i => decide (i < w)) (fun _ => false) snaps
        st).w.frames.length ≤ w ∧
      ((stream_loop (fun i => decide (i < w)) (fun _ => false) snaps
          st).closed = false →
        (stream_loop (fun i => decide (i < w)) (fun _ => false) snaps
          st).w.wclock ≤ w) ∧
      (stream_loop (fun i => decide (i < w)) (fun _ => false) snaps
        st).exited = false := by
  intro snaps
  induction snaps with
  | nil =>
      intro st h1 h2 h3 hex
      exact ⟨h2, fun hcf => h3 hcf hex, hex⟩
  | cons ms rest ih =>
      intro st h1 h2 h3 hex
      obtain ⟨c1, c2, c3, c4⟩ := process_chunk_w w st ms h1 h2 h3 hex
      exact ih (process_chunk (fun i => decide (i < w)) (fun _ => false) st
        ms) c1 c2 (fun ha _ => c3 ha) c4

end AixDB

namespace AixDB

/-- Claim C6: a write failing with a transport/connection error (matched
by exception type name or message substrings) produces no user-visible
frame at all for that failure and is not re-raised (`_safe_write` returns
`False` instead; non-connection write failures re-raise); over a channel
that dies after its `w`-th accepted write, the pipeline delivers at most
`w` frames — everything delivered precedes the failure, so no
error-classified message is ever emitted for it — and once a write
attempt hits the dead channel the task is in its disconnected state
(`connection_closed`), after which no further frames are written. -/
theorem c6_transport_failure_silence (e : Exn)
    (content message_type data_type : String) (snaps : List (List Msg))
    (w : Nat) (u s q : String) (d : Nat) :
    (is_connection_error e = true →
      safe_write (some e) content message_type data_type = .ok (false, [])) ∧
    (is_connection_error e = false →
      safe_write (some e) content message_type data_type = .error e) ∧
    ((stream_agent_response
        { snapshots := snaps, tail := .done, cancelled := fun _ => false,
          chan := fun i => decide (i < w), uuid := u, session := s,
          query := q, datasource_id := d }
        initLoopSt).st.w.frames.length ≤ w ∧
      (w < (stream_agent_response
          { snapshots := snaps, tail := .done, cancelled := fun _ => false,
            chan := fun i => decide (i < w), uuid := u, session := s,
            query := q, datasource_id := d }
          initLoopSt).st.w.wclock →
        (stream_agent_response
          { snapshots := snaps, tail := .done, cancelled := fun _ => false,
            chan := fun i => decide (i < w), uuid := u, session := s,
            query := q, datasource_id := d }
          initLoopSt).st.closed = true)) := by
  refine ⟨?_, ?_, ?_⟩
  · intro h
    simp [safe_write, h]
  · intro h
    simp [safe_write, h]
  · obtain ⟨l1, l2, l3⟩ := stream_loop_w w snaps initLoopSt
      (by simp [initLoopSt]) (by simp [initLoopSt])
      (by intro _ _; simp [initLoopSt]) (by simp [initLoopSt])
    have hst : (stream_agent_response
        { snapshots := snaps, tail := .done, cancelled := fun _ => false,
          chan := fun i => decide (i < w), uuid := u, session := s,
          query := q, datasource_id := d }
        initLoopSt).st =
        { stream_loop (fun i => decide (i < w)) (fun _ => false) snaps
            initLoopSt with
          clock := (stream_loop (fun i => decide (i < w)) (fun _ => false)
            snaps initLoopSt).clock + 1 } := by
      rw [stream_agent_response]
      by_cases hc : ((stream_loop (fun i => decide (i < w)) (fun _ => false)
          snaps initLoopSt).exited ||
          (stream_loop (fun i => decide (i < w)) (fun _ => false) snaps
            initLoopSt).closed) = true
      · rw [if_pos hc]
      · rw [if_neg hc]
    rw [hst]
    refine ⟨l1, ?_⟩
    intro hw
    have hw2 : w < (stream_loop (fun i => decide (i < w)) (fun _ => false)
        snaps initLoopSt).w.wclock := hw
    by_contra hcl
    simp only [Bool.not_eq_true] at hcl
    have hcl2 : (stream_loop (fun i => decide (i < w)) (fun _ => false)
        snaps initLoopSt).closed = false := hcl
    exact absurd (l2 hcl2) (by omega)

end AixDB

namespace AixDB

/-- Claim C6 witness: a broken-pipe write failure (matched by message
substring) is swallowed, delivering nothing. -/
theorem c6_transport_failure_silence_witness :
    is_connection_error
      { typeName := "RuntimeError",
        message := "Broken pipe while writing to client" } = true ∧
    safe_write
      (some { typeName := "RuntimeError",
              message := "Broken pipe while writing to client" })
      "x" "continue" ANSWER_DT = .ok (false, []) :=
  ⟨by decide,
    (c6_transport_failure_silence
      { typeName := "RuntimeError",
        message := "Broken pipe while writing to client" }
      "x" "continue" ANSWER_DT [] 0 "" "" "" 0).1 (by decide)⟩

/-- Under a healthy channel and no cancellation, the per-message loop
keeps both exit flags and adds no `end` frame. -/
theorem process_batch_clean :
    ∀ (batch : List Msg) (idx : Nat) (st : LoopSt),
      (process_batch (fun _ => true) (fun _ => false) batch idx st).exited
        = st.exited ∧
      (process_batch (fun _ => true) (fun _ => false) batch idx st).closed
        = st.closed ∧
      ∃ extra, (process_batch (fun _ => true) (fun _ => false) batch idx
          st).w.frames = st.w.frames ++ extra ∧
        ∀ f ∈ extra, f.messageType ≠ "end" := by
  intro batch
  induction batch with
  | nil =>
      intro idx st
      exact ⟨rfl, rfl, [], by simp [process_batch], by simp⟩
  | cons m rest ih =>
      intro idx st
      rw [process_batch]
      rw [if_neg Bool.false_ne_true]
      have hok := print_message_ok m st.w st.answers
      obtain ⟨extra1, he1, hn1⟩ := print_message_frames (fun _ => true) false
        m st.w st.answers
      rcases hp : print_message (fun _ => true) false m st.w st.answers
        with ⟨w1, ans1, okm⟩
      rw [hp] at hok he1
      have hokm : okm = true := hok
      subst hokm
      simp only [Bool.not_true, Bool.false_eq_true, if_false]
      obtain ⟨e2, he2, hn2⟩ := (ih (idx + 1)
        { printed := st.printed, clock := st.clock + 1, w := w1,
          answers := ans1, rendered := st.rendered ++ [(idx, m)],
          closed := st.closed, exited := st.exited }).2.2
      refine ⟨(ih (idx + 1) _).1, (ih (idx + 1) _).2.1, extra1 ++ e2, ?_, ?_⟩
      · rw [he2]
        show w1.frames ++ e2 = st.w.frames ++ (extra1 ++ e2)
        rw [he1, List.append_assoc]
      · intro f hf
        rcases List.mem_append.mp hf with hf | hf
        · exact hn1 f hf
        · exact hn2 f hf

/-- Under a healthy channel and no cancellation, one snapshot iteration
keeps both exit flags and adds no `end` frame. -/
theorem process_chunk_clean (st : LoopSt) (ms : List Msg) :
    (process_chunk (fun _ => true) (fun _ => false) st ms).exited
      = st.exited ∧
    (process_chunk (fun _ => true) (fun _ => false) st ms).closed
      = st.closed ∧
    ∃ extra, (process_chunk (fun _ => true) (fun _ => false) st
        ms).w.frames = st.w.frames ++ extra ∧
      ∀ f ∈ extra, f.messageType ≠ "end" := by
  rw [process_chunk]
  by_cases hskip : (st.exited || st.closed) = true
  · rw [if_pos hskip]
    exact ⟨rfl, rfl, [], by simp, by simp⟩
  · rw [if_neg hskip]
    rw [if_neg Bool.false_ne_true]
    by_cases hlt : st.printed < ms.length
    · rw [if_pos hlt]
      obtain ⟨b1, b2, extra, he, hn⟩ := process_batch_clean
        (ms.drop st.printed) st.printed { st with clock := st.clock + 1 }
      have hbex : (process_batch (fun _ => true) (fun _ => false)
          (ms.drop st.printed) st.printed
          { st with clock := st.clock + 1 }).exited = st.exited := b1
      by_cases hex2 : (process_batch (fun _ => true) (fun _ => false)
          (ms.drop st.printed) st.printed
          { st with clock := st.clock + 1 }).exited = true
      · rw [if_pos hex2]
        exact ⟨hbex, b2, extra, he, hn⟩
      · rw [if_neg hex2]
        exact ⟨hbex, b2, extra, he, hn⟩
    · rw [if_neg hlt]
      exact ⟨rfl, rfl, [], by simp, by simp⟩

/-- Under a healthy channel and no cancellation, the whole snapshot loop
keeps both exit flags and adds no `end` frame. -/
theorem stream_loop_clean :
    ∀ (snaps : List (List Msg)) (st : LoopSt),
      (stream_loop (fun _ => true) (fun _ => false) snaps st).exited
        = st.exited ∧
      (stream_loop (fun _ => true) (fun _ => false) snaps st).closed
        = st.closed ∧
      ∃ extra, (stream_loop (fun _ => true) (fun _ => false) snaps
          st).w.frames = st.w.frames ++ extra ∧
        ∀ f ∈ extra, f.messageType ≠ "end" := by
  intro snaps
  induction snaps with
  | nil =>
      intro st
      exact ⟨rfl, rfl, [], by simp [stream_loop], by simp⟩
  | cons ms rest ih =>
      intro st
      obtain ⟨c1, c2, e1, he1, hn1⟩ := process_chunk_clean st ms
      obtain ⟨l1, l2, e2, he2, hn2⟩ := ih
        (process_chunk (fun _ => true) (fun _ => false) st ms)
      refine ⟨l1.trans c1, l2.trans c2, e1 ++ e2, ?_, ?_⟩
      · show (stream_loop (fun _ => true) (fun _ => false) rest
          (process_chunk (fun _ => true) (fun _ => false) st ms)).w.frames
          = st.w.frames ++ (e1 ++ e2)
        rw [he2, he1, List.append_assoc]
      · intro f hf
        rcases List.mem_append.mp hf with hf | hf
        · exact hn1 f hf
        · exact hn2 f hf

end AixDB

namespace AixDB

/-- Claim C1 counterexample: a task run that completes normally (healthy
channel, no cancellation, the agent stream is exhausted without error)
delivers its rendered frames but ZERO `end` frames — the frame sequence
does not end with a terminal `end` frame, refuting the claim on the
normal-completion path.  (The run did complete: two frames were
delivered and the exchange record was persisted.) -/
theorem c1_counterexample :
    (run_agent env_normal_completion).frames.countP
      (fun f => f.messageType = "end") = 0 ∧
    (run_agent env_normal_completion).frames.length = 2 ∧
    (run_agent env_normal_completion).persisted.isSome = true := by
  refine ⟨?_, ?_, ?_⟩ <;> decide

/-- Claim C1 (amended): runtime failures raised by the agent stream and
caught at the outermost loop of the pipeline — when they are not
transport failures and the stream was not already cancelled or
disconnected — produce exactly one user-visible terminal message pair:
one error-content frame (timeout remediation text for timeouts, the
generic diagnostic otherwise) followed by one `end` frame, appended after
the frames of the streaming phase, which themselves contain no `end`
frame; so the whole sequence carries exactly one `end` frame, in final
position.  (Normal completion, by the counterexample, emits no `end`
frame at all.) -/
theorem c1_failure_terminal_pair (snaps : List (List Msg)) (e : Exn)
    (u s q : String) (d : Nat)
    (hnc : is_connection_error e = false) :
    (stream_agent_response
        { snapshots := snaps, tail := .raiseExn e,
          cancelled := fun _ => false, chan := fun _ => true, uuid := u,
          session := s, query := q, datasource_id := d }
        initLoopSt).st.w.frames =
      (stream_loop (fun _ => true) (fun _ => false) snaps
        initLoopSt).w.frames ++
      [create_response
          (if is_timeout_exn e then timeout_user_msg
            else stream_error_user_msg e) "error" ANSWER_DT,
        create_response "" "end" STREAM_END_DT] ∧
    (stream_loop (fun _ => true) (fun _ => false) snaps
      initLoopSt).w.frames.countP (fun f => f.messageType = "end") = 0 ∧
    (stream_agent_response
        { snapshots := snaps, tail := .raiseExn e,
          cancelled := fun _ => false, chan := fun _ => true, uuid := u,
          session := s, query := q, datasource_id := d }
        initLoopSt).st.w.frames.countP (fun f => f.messageType = "end")
      = 1 := by
  obtain ⟨hex, hcl, extra, hfr, hnend⟩ := stream_loop_clean snaps initLoopSt
  have hex2 : (stream_loop (fun _ => true) (fun _ => false) snaps
      initLoopSt).exited = false := hex.trans rfl
  have hcl2 : (stream_loop (fun _ => true) (fun _ => false) snaps
      initLoopSt).closed = false := hcl.trans rfl
  have hcount : (stream_loop (fun _ => true) (fun _ => false) snaps
      initLoopSt).w.frames.countP (fun f => f.messageType = "end") = 0 := by
    rw [hfr]
    rw [List.countP_append]
    have h1 : List.countP (fun f => decide (f.messageType = "end"))
        (initLoopSt.w.frames) = 0 := by decide
    have h2 : List.countP (fun f => decide (f.messageType = "end")) extra
        = 0 := by
      rw [List.countP_eq_zero]
      intro f hf
      simpa using hnend f hf
    simp only [h1, h2]
  have hmain : (stream_agent_response
      { snapshots := snaps, tail := .raiseExn e,
        cancelled := fun _ => false, chan := fun _ => true, uuid := u,
        session := s, query := q, datasource_id := d }
      initLoopSt).st.w.frames =
      (stream_loop (fun _ => true) (fun _ => false) snaps
        initLoopSt).w.frames ++
      [create_response
          (if is_timeout_exn e then timeout_user_msg
            else stream_error_user_msg e) "error" ANSWER_DT,
        create_response "" "end" STREAM_END_DT] := by
    rw [stream_agent_response]
    rw [if_neg (by rw [hex2, hcl2]; simp)]
    simp only []
    rw [if_neg (by rw [hnc]; exact Bool.false_ne_true)]
    by_cases ht : is_timeout_exn e = true
    · rw [if_pos ht, if_pos ht]
      simp [attempt_write]
    · have ht2 : is_timeout_exn e = false := by
        rw [Bool.not_eq_true] at ht
        exact ht
      rw [if_neg ht, if_neg ht]
      simp [attempt_write]
  refine ⟨hmain, hcount, ?_⟩
  rw [hmain, List.countP_append, hcount]
  simp [create_response, List.countP_cons]

/-- Claim C1 witness: a concrete timeout failure after one snapshot
yields exactly the error + end pair at the tail of the stream. -/
theorem c1_failure_terminal_pair_witness :
    (stream_agent_response
        { snapshots := [[Msg.human "hi"]], tail := .raiseExn
            { typeName := "TimeoutError", message := "Request timed out" },
          cancelled := fun _ => false, chan := fun _ => true, uuid := "x",
          session := "s", query := "hi", datasource_id := 1 }
        initLoopSt).st.w.frames =
      (stream_loop (fun _ => true) (fun _ => false) [[Msg.human "hi"]]
        initLoopSt).w.frames ++
      [create_response
          (if is_timeout_exn
              { typeName := "TimeoutError", message := "Request timed out" }
            then timeout_user_msg
            else stream_error_user_msg
              { typeName := "TimeoutError", message := "Request timed out" })
          "error" ANSWER_DT,
        create_response "" "end" STREAM_END_DT] ∧
    (stream_loop (fun _ => true) (fun _ => false) [[Msg.human "hi"]]
      initLoopSt).w.frames.countP (fun f => f.messageType = "end") = 0 ∧
    (stream_agent_response
        { snapshots := [[Msg.human "hi"]], tail := .raiseExn
            { typeName := "TimeoutError", message := "Request timed out" },
          cancelled := fun _ => false, chan := fun _ => true, uuid := "x",
          session := "s", query := "hi", datasource_id := 1 }
        initLoopSt).st.w.frames.countP (fun f => f.messageType = "end")
      = 1 :=
  c1_failure_terminal_pair [[Msg.human "hi"]]
    { typeName := "TimeoutError", message := "Request timed out" }
    "x" "s" "hi" 1 (by decide)

end AixDB

namespace AixDB

/-- Claim C7 counterexample: a task run whose setup fails before
streaming (the datasource lookup raises) terminates without cancellation
— an error frame is delivered — yet no exchange record is persisted,
refuting "persisted if and only if the task was not cancelled". -/
theorem c7_counterexample :
    (run_agent env_setup_failure).persisted = none ∧
    env_setup_failure.stream.cancelled 0 = false ∧
    (run_agent env_setup_failure).frames.countP
      (fun f => f.messageType = "error") = 1 := by
  refine ⟨?_, ?_, ?_⟩ <;> decide

/-- Persistence decision of the stream's `finally` block under a constant
cancellation flag. -/
theorem stream_agent_response_persisted (env : StreamEnv) (st0 : LoopSt)
    (b : Bool) (hflag : env.cancelled = fun _ => b) :
    (stream_agent_response env st0).persisted =
      (if b then none
        else some
          { uuid := env.uuid,
            session := env.session,
            query := env.query,
            answers := (stream_agent_response env st0).st.answers,
            datasource_id := env.datasource_id }) := by
  simp only [stream_agent_response, hflag]

/-- Claim C7 (amended to runs that reach the streaming phase; setup
failures persist nothing, see the counterexample): on termination the
exchange record — uuid, session, user query, the full ordered list of
rendered text blocks, datasource identity — is persisted iff the
cancellation flag is not set, across every tail outcome of the stream
(normal exhaustion, runtime error, disconnect, coroutine cancellation);
and the Task Registry entry is removed afterwards in all cases. -/
theorem c7_persistence_iff_not_cancelled (env : AgentEnv) (b : Bool)
    (hds : env.datasource_present = true) (hsetup : env.setup = none)
    (hflag : env.stream.cancelled = fun _ => b) :
    (run_agent env).persisted =
      (if b then none
        else some
          { uuid := env.stream.uuid,
            session := env.stream.session,
            query := env.stream.query,
            answers := (stream_agent_response env.stream
              initLoopSt).st.answers,
            datasource_id := env.stream.datasource_id }) ∧
    (run_agent env).registry =
      registry_end (registry_start env.registry0 env.task_id) env.task_id := by
  have hper := stream_agent_response_persisted env.stream initLoopSt b hflag
  constructor
  · simp only [run_agent, hds, hsetup]
    by_cases hr : (stream_agent_response env.stream
        initLoopSt).reraisedCancelled = true
    · simp only [hr, if_true]
      exact hper
    · simp only [Bool.not_eq_true] at hr
      simp only [hr, Bool.false_eq_true, if_false]
      exact hper
  · simp only [run_agent, hds]
    simp

/-- Claim C7 witness: the normal-completion run persists the exchange
record (flag never set). -/
theorem c7_persistence_iff_not_cancelled_witness :
    (run_agent env_normal_completion).persisted =
      (if false then none
        else some
          { uuid := env_normal_completion.stream.uuid,
            session := env_normal_completion.stream.session,
            query := env_normal_completion.stream.query,
            answers := (stream_agent_response env_normal_completion.stream
              initLoopSt).st.answers,
            datasource_id := env_normal_completion.stream.datasource_id }) ∧
    (run_agent env_normal_completion).registry =
      registry_end (registry_start env_normal_completion.registry0
        env_normal_completion.task_id) env_normal_completion.task_id :=
  c7_persistence_iff_not_cancelled env_normal_completion false rfl rfl rfl

end AixDB
